import Mathlib

/-!
# pritunl-link: route advertisement on AWS and the deploy scheduler

A shallow embedding of `advertise/aws.go` and `ipsec/ipsec.go`.

Every call that leaves the process (AWS SDK, EC2 metadata service, route
ledger, file system, firewall, daemon) is a field of an environment record
that acts on an abstract world state `σ`; each embedded function returns its
Go result together with the new world and the list of outside calls it made,
in order.  Go strings that the code compares with `""` stay strings, Go
pointers that may be `nil` are `Option`s, Go slices that the code compares
with `nil` are `Option (List _)`.
-/

namespace PritunlLink

/-- Go `error` values produced or passed on by the embedded code.  `ext` is an
error handed back by a library or a collaborator; the other constructors are
the `errortypes` wrappers the code builds (`errors.Wrap` keeps the message and
the wrapped cause; the cause is `nil` where the code wraps a nil error). -/
inductive GoError where
  | ext (msg : String)
  | RequestError (msg : String) (cause : GoError)
  | UnknownError (msg : String)
  | ReadError (msg : String) (cause : GoError)
  | WriteError (msg : String) (cause : GoError)
  | ParseError (msg : String) (cause : GoError)
deriving DecidableEq, Repr

/-- Result of an embedded function: the Go return value, the world after the
call, and the outside calls made, oldest first. -/
structure Out (σ : Type) (ε : Type) (α : Type) where
  ret : α
  world : σ
  trace : List ε

/-- Go `strings.Contains` on the character lists of the two strings. -/
def containsChars (sub : List Char) : List Char → Bool
  | [] => sub.isEmpty
  | c :: cs => sub.isPrefixOf (c :: cs) || containsChars sub cs

/-- Go `strings.Contains(s, substr)`. -/
def stringsContains (s substr : String) : Bool :=
  containsChars substr.data s.data

namespace advertise

/-- The `awsMetaData` struct of aws.go. -/
structure awsMetaData where
  Region : String
  InstanceId : String
  InterfaceId : String
  VpcId : String
deriving DecidableEq, Repr

/-- The `awsRoute` struct of aws.go. -/
structure awsRoute where
  DestinationCidrBlock : String
  DestinationIpv6CidrBlock : String
  InstanceId : String
  NetworkInterfaceId : String
deriving DecidableEq, Repr

/-- The fields of `ec2.Route` that aws.go reads (pointers in Go). -/
structure Ec2Route where
  DestinationCidrBlock : Option String
  DestinationIpv6CidrBlock : Option String
  InstanceId : Option String
  NetworkInterfaceId : Option String
deriving DecidableEq, Repr

/-- The fields of `ec2.RouteTable` that aws.go reads. -/
structure Ec2RouteTable where
  RouteTableId : Option String
  Routes : List Ec2Route
deriving DecidableEq, Repr

/-- The fields of `ec2.CreateRouteInput` that aws.go sets; `none` is a field
left unset. -/
structure CreateRouteInput where
  DestinationCidrBlock : Option String
  DestinationIpv6CidrBlock : Option String
  InstanceId : Option String
  NetworkInterfaceId : Option String
  RouteTableId : Option String
deriving DecidableEq, Repr

/-- The fields of `ec2.ReplaceRouteInput` that aws.go sets. -/
structure ReplaceRouteInput where
  DestinationCidrBlock : Option String
  DestinationIpv6CidrBlock : Option String
  InstanceId : Option String
  NetworkInterfaceId : Option String
  RouteTableId : Option String
deriving DecidableEq, Repr

/-- The fields of `ec2.DeleteRouteInput` that aws.go sets. -/
structure DeleteRouteInput where
  DestinationCidrBlock : Option String
  DestinationIpv6CidrBlock : Option String
  RouteTableId : Option String
deriving DecidableEq, Repr

/-- The ledger record `routes.AwsRoute`, with the fields aws.go fills in. -/
structure LedgerRoute where
  DestNetwork : String
  Region : String
  VpcId : String
  InterfaceId : String
  InstanceId : String
deriving DecidableEq, Repr

/-- The `config.Config.Aws` values read by `awsGetMetaData`. -/
structure AwsConfig where
  Region : String
  VpcId : String
  InstanceId : String
  InterfaceId : String
deriving DecidableEq, Repr

/-- The parts of `config.Config` read by aws.go. -/
structure Config where
  Aws : AwsConfig
  DeleteRoutes : Bool
deriving DecidableEq, Repr

/-- An outside call made by aws.go. -/
inductive Call where
  | Sleep (ms : Nat)
  | NewSessionWithOptions (region : String)
  | MetadataRegion
  | GetMetadata (path : String)
  | DescribeRouteTables (region vpcId : String)
  | CreateRoute (input : CreateRouteInput)
  | ReplaceRoute (input : ReplaceRouteInput)
  | DeleteRoute (input : DeleteRouteInput)
  | LedgerAdd (route : LedgerRoute)
  | LedgerRemove (route : LedgerRoute)
deriving DecidableEq, Repr

/-- One entry of the trace: the call and the error it returned, if any. -/
structure Event where
  call : Call
  err : Option GoError
deriving DecidableEq, Repr

/-- The collaborators of aws.go acting on a world state `σ`.  `Interrupt` reads
`constants.Interrupt`; `rangeOrder` is the order in which a Go `range` over the
route-table map visits its entries (unspecified by the language). -/
structure Env (σ : Type) where
  config : Config
  Interrupt : σ → Bool
  NewSessionWithOptions : String → σ → Option GoError × σ
  MetadataRegion : σ → Except GoError String × σ
  GetMetadata : String → σ → Except GoError String × σ
  DescribeRouteTables : String → String → σ → Except GoError (List Ec2RouteTable) × σ
  CreateRoute : CreateRouteInput → σ → Option GoError × σ
  ReplaceRoute : ReplaceRouteInput → σ → Option GoError × σ
  DeleteRoute : DeleteRouteInput → σ → Option GoError × σ
  LedgerAdd : LedgerRoute → σ → Option GoError × σ
  LedgerRemove : LedgerRoute → σ → Option GoError × σ
  rangeOrder : List (String × List awsRoute) → List (String × List awsRoute)

/-- Go map assignment `tables[k] = v` on a map kept as an association list with
distinct keys: an existing entry is overwritten, a new key is added. -/
def mapSet (k : String) (v : List awsRoute) :
    List (String × List awsRoute) → List (String × List awsRoute)
  | [] => [(k, v)]
  | (k0, v0) :: rest => if k0 = k then (k, v) :: rest else (k0, v0) :: mapSet k v rest

/-- The function `awsGetSession`: the session handle carries no data the code
reads, so only the error is returned. -/
def awsGetSession {σ : Type} (env : Env σ) (region : String) (w : σ) :
    Out σ Event (Option GoError) :=
  let r := env.NewSessionWithOptions region w
  match r.1 with
  | some e =>
    ⟨some (GoError.RequestError "cloud: Failed to create AWS session" e), r.2,
      [⟨Call.NewSessionWithOptions region, some e⟩]⟩
  | none => ⟨none, r.2, [⟨Call.NewSessionWithOptions region, none⟩]⟩

/-- The zero value `&awsMetaData{}`. -/
def awsMetaData.zero : awsMetaData := ⟨"", "", "", ""⟩

/-- The function `awsGetMetaData`. -/
def awsGetMetaData {σ : Type} (env : Env σ) (w : σ) :
    Out σ Event (awsMetaData × Option GoError) :=
  let confRegion := env.config.Aws.Region
  let confVpcId := env.config.Aws.VpcId
  let confInstanceId := env.config.Aws.InstanceId
  let confInterfaceId := env.config.Aws.InterfaceId
  if confRegion ≠ "" ∧ confVpcId ≠ "" ∧ (confInstanceId ≠ "" ∨ confInterfaceId ≠ "") then
    ⟨(⟨confRegion, confInstanceId, confInterfaceId, confVpcId⟩, none), w, []⟩
  else
    let s := awsGetSession env "" w
    match s.ret with
    | some e => ⟨(awsMetaData.zero, some e), s.world, s.trace⟩
    | none =>
      let r := env.MetadataRegion s.world
      match r.1 with
      | Except.error e =>
        ⟨(awsMetaData.zero, some (GoError.RequestError "cloud: Failed to get AWS region" e)),
          r.2, s.trace ++ [⟨Call.MetadataRegion, some e⟩]⟩
      | Except.ok region =>
        let t1 := s.trace ++ [⟨Call.MetadataRegion, none⟩]
        let i := env.GetMetadata "instance-id" r.2
        match i.1 with
        | Except.error e =>
          ⟨(awsMetaData.zero,
              some (GoError.RequestError "cloud: Failed to get EC2 instance ID" e)),
            i.2, t1 ++ [⟨Call.GetMetadata "instance-id", some e⟩]⟩
        | Except.ok instanceId =>
          let t2 := t1 ++ [⟨Call.GetMetadata "instance-id", none⟩]
          let m := env.GetMetadata "mac" i.2
          match m.1 with
          | Except.error e =>
            ⟨(awsMetaData.zero,
                some (GoError.RequestError "cloud: Failed to get EC2 MAC address" e)),
              m.2, t2 ++ [⟨Call.GetMetadata "mac", some e⟩]⟩
          | Except.ok macAddr =>
            let t3 := t2 ++ [⟨Call.GetMetadata "mac", none⟩]
            let pth := "network/interfaces/macs/" ++ macAddr ++ "/vpc-id"
            let v := env.GetMetadata pth m.2
            match v.1 with
            | Except.error e =>
              ⟨(awsMetaData.zero,
                  some (GoError.RequestError "cloud: Failed to get EC2 VPC ID" e)),
                v.2, t3 ++ [⟨Call.GetMetadata pth, some e⟩]⟩
            | Except.ok vpcId =>
              ⟨(⟨region, instanceId, "", vpcId⟩, none), v.2,
                t3 ++ [⟨Call.GetMetadata pth, none⟩]⟩

/-- The inner loop of `awsGetRouteTables`: one `ec2.Route` becomes one
`awsRoute`, a nil pointer becoming the empty string. -/
def convertRoute (route : Ec2Route) : awsRoute :=
  ⟨route.DestinationCidrBlock.getD "", route.DestinationIpv6CidrBlock.getD "",
    route.InstanceId.getD "", route.NetworkInterfaceId.getD ""⟩

/-- The outer loop of `awsGetRouteTables` over `vpcTables.RouteTables`, filling
the map `tables`; a table without an id is skipped. -/
def collectTables (tables : List (String × List awsRoute)) :
    List Ec2RouteTable → List (String × List awsRoute)
  | [] => tables
  | table :: rest =>
    let rtes := table.Routes.map convertRoute
    let tableId := table.RouteTableId.getD ""
    if tableId = "" then collectTables tables rest
    else collectTables (mapSet tableId rtes tables) rest

/-- The function `awsGetRouteTables`. -/
def awsGetRouteTables {σ : Type} (env : Env σ) (region vpcId : String) (w : σ) :
    Out σ Event (List (String × List awsRoute) × Option GoError) :=
  let s := awsGetSession env region w
  match s.ret with
  | some e => ⟨([], some e), s.world, s.trace⟩
  | none =>
    let r := env.DescribeRouteTables region vpcId s.world
    match r.1 with
    | Except.error e =>
      ⟨([], some (GoError.RequestError "cloud: Failed to get VPC route tables" e)), r.2,
        s.trace ++ [⟨Call.DescribeRouteTables region vpcId, some e⟩]⟩
    | Except.ok vpcTables =>
      ⟨(collectTables [] vpcTables, none), r.2,
        s.trace ++ [⟨Call.DescribeRouteTables region vpcId, none⟩]⟩

/-- The inner `for _, route := range rtes` loop of `AwsAddRoute`: the values of
`exists` and `replace` when the loop ends (it stops at the first route whose
destination matches). -/
def scanRoutes (ipv6 : Bool) (network : String) (data : awsMetaData) :
    List awsRoute → Bool × Bool
  | [] => (false, false)
  | route :: rest =>
    if (if ipv6 then route.DestinationIpv6CidrBlock ≠ network
        else route.DestinationCidrBlock ≠ network) then
      scanRoutes ipv6 network data rest
    else
      (true,
        if data.InterfaceId ≠ "" then decide (route.NetworkInterfaceId ≠ data.InterfaceId)
        else decide (route.InstanceId ≠ data.InstanceId))

/-- The `ec2.ReplaceRouteInput` built by `AwsAddRoute`, lines 266-279 and again
lines 319-332. -/
def replaceInput (ipv6 : Bool) (network : String) (data : awsMetaData) (tableId : String) :
    ReplaceRouteInput where
  NetworkInterfaceId := if data.InterfaceId ≠ "" then some data.InterfaceId else none
  InstanceId := if data.InterfaceId ≠ "" then none else some data.InstanceId
  DestinationIpv6CidrBlock := if ipv6 then some network else none
  DestinationCidrBlock := if ipv6 then none else some network
  RouteTableId := some tableId

/-- The `ec2.CreateRouteInput` built by `AwsAddRoute` for a primary create,
lines 303-315. -/
def createInput (ipv6 : Bool) (network : String) (data : awsMetaData) (tableId : String) :
    CreateRouteInput where
  DestinationIpv6CidrBlock := if ipv6 then some network else none
  DestinationCidrBlock := if ipv6 then none else some network
  RouteTableId := some tableId
  NetworkInterfaceId := if data.InterfaceId ≠ "" then some data.InterfaceId else none
  InstanceId := if data.InterfaceId ≠ "" then none else some data.InstanceId

/-- The `ec2.CreateRouteInput` built by `AwsAddRoute` after a failed replace,
lines 284-292: `SetDestinationCidrBlock(network)` without a test of `ipv6`. -/
def createFallbackInput (network : String) (data : awsMetaData) (tableId : String) :
    CreateRouteInput where
  DestinationCidrBlock := some network
  DestinationIpv6CidrBlock := none
  RouteTableId := some tableId
  NetworkInterfaceId := if data.InterfaceId ≠ "" then some data.InterfaceId else none
  InstanceId := if data.InterfaceId ≠ "" then none else some data.InstanceId

/-- The body of the `for tableId, rtes := range tables` loop of `AwsAddRoute`
for one table.  A returned error is the `return` of lines 299 and 339; `none`
is the end of the body or its `continue`. -/
def addRouteTable {σ : Type} (env : Env σ) (ipv6 : Bool) (network : String)
    (data : awsMetaData) (tableId : String) (rtes : List awsRoute) (w : σ) :
    Out σ Event (Option GoError) :=
  let found := (scanRoutes ipv6 network data rtes).1
  let replace := (scanRoutes ipv6 network data rtes).2
  if found && !replace then ⟨none, w, []⟩
  else if replace then
    let input := replaceInput ipv6 network data tableId
    let r := env.ReplaceRoute input w
    match r.1 with
    | none => ⟨none, r.2, [⟨Call.ReplaceRoute input, none⟩]⟩
    | some e1 =>
      let input2 := createFallbackInput network data tableId
      let c := env.CreateRoute input2 r.2
      match c.1 with
      | none =>
        ⟨none, c.2, [⟨Call.ReplaceRoute input, some e1⟩, ⟨Call.CreateRoute input2, none⟩]⟩
      | some e2 =>
        ⟨some (GoError.RequestError "cloud: Failed to get create route" e2), c.2,
          [⟨Call.ReplaceRoute input, some e1⟩, ⟨Call.CreateRoute input2, some e2⟩]⟩
  else
    let input := createInput ipv6 network data tableId
    let c := env.CreateRoute input w
    match c.1 with
    | none => ⟨none, c.2, [⟨Call.CreateRoute input, none⟩]⟩
    | some e1 =>
      let input2 := replaceInput ipv6 network data tableId
      let r := env.ReplaceRoute input2 c.2
      match r.1 with
      | none =>
        ⟨none, r.2, [⟨Call.CreateRoute input, some e1⟩, ⟨Call.ReplaceRoute input2, none⟩]⟩
      | some e2 =>
        ⟨some (GoError.RequestError "cloud: Failed to get create route" e2), r.2,
          [⟨Call.CreateRoute input, some e1⟩, ⟨Call.ReplaceRoute input2, some e2⟩]⟩

/-- The `for tableId, rtes := range tables` loop of `AwsAddRoute` over the
entries in the order the range visits them. -/
def addRouteLoop {σ : Type} (env : Env σ) (ipv6 : Bool) (network : String)
    (data : awsMetaData) : List (String × List awsRoute) → σ → Out σ Event (Option GoError)
  | [], w => ⟨none, w, []⟩
  | t :: rest, w =>
    let b := addRouteTable env ipv6 network data t.1 t.2 w
    match b.ret with
    | some e => ⟨some e, b.world, b.trace⟩
    | none =>
      let l := addRouteLoop env ipv6 network data rest b.world
      ⟨l.ret, l.world, b.trace ++ l.trace⟩

/-- The function `AwsAddRoute`. -/
def AwsAddRoute {σ : Type} (env : Env σ) (network : String) (w : σ) :
    Out σ Event (Option GoError) :=
  let t0 : List Event := [⟨Call.Sleep 150, none⟩]
  let ipv6 := stringsContains network ":"
  if env.Interrupt w then ⟨some (GoError.UnknownError "advertise: Interrupt"), w, t0⟩
  else
    let md := awsGetMetaData env w
    match md.ret.2 with
    | some e => ⟨some e, md.world, t0 ++ md.trace⟩
    | none =>
      let data := md.ret.1
      let tb := awsGetRouteTables env data.Region data.VpcId md.world
      match tb.ret.2 with
      | some e => ⟨some e, tb.world, t0 ++ md.trace ++ tb.trace⟩
      | none =>
        let ss := awsGetSession env data.Region tb.world
        match ss.ret with
        | some e => ⟨some e, ss.world, t0 ++ md.trace ++ tb.trace ++ ss.trace⟩
        | none =>
          let lp := addRouteLoop env ipv6 network data (env.rangeOrder tb.ret.1) ss.world
          match lp.ret with
          | some e => ⟨some e, lp.world, t0 ++ md.trace ++ tb.trace ++ ss.trace ++ lp.trace⟩
          | none =>
            let route : LedgerRoute :=
              ⟨network, data.Region, data.VpcId, data.InterfaceId, data.InstanceId⟩
            let a := env.LedgerAdd route lp.world
            ⟨a.1, a.2,
              t0 ++ md.trace ++ tb.trace ++ ss.trace ++ lp.trace ++ [⟨Call.LedgerAdd route, a.1⟩]⟩

/-- The `ec2.DeleteRouteInput` built by `AwsDeleteRoute`, lines 389-396. -/
def deleteInput (ipv6 : Bool) (network : String) (tableId : String) : DeleteRouteInput where
  DestinationIpv6CidrBlock := if ipv6 then some network else none
  DestinationCidrBlock := if ipv6 then none else some network
  RouteTableId := some tableId

/-- The `for tableId := range tables` loop of `AwsDeleteRoute`: the result of
`ec2Svc.DeleteRoute` is dropped. -/
def deleteRouteLoop {σ : Type} (env : Env σ) (ipv6 : Bool) (network : String) :
    List (String × List awsRoute) → σ → Out σ Event Unit
  | [], w => ⟨(), w, []⟩
  | t :: rest, w =>
    let input := deleteInput ipv6 network t.1
    let d := env.DeleteRoute input w
    let l := deleteRouteLoop env ipv6 network rest d.2
    ⟨(), l.world, ⟨Call.DeleteRoute input, d.1⟩ :: l.trace⟩

/-- The function `AwsDeleteRoute`. -/
def AwsDeleteRoute {σ : Type} (env : Env σ) (route : LedgerRoute) (w : σ) :
    Out σ Event (Option GoError) :=
  if env.config.DeleteRoutes then
    let t0 : List Event := [⟨Call.Sleep 150, none⟩]
    let ipv6 := stringsContains route.DestNetwork ":"
    if env.Interrupt w then ⟨some (GoError.UnknownError "advertise: Interrupt"), w, t0⟩
    else
      let tb := awsGetRouteTables env route.Region route.VpcId w
      match tb.ret.2 with
      | some e => ⟨some e, tb.world, t0 ++ tb.trace⟩
      | none =>
        let ss := awsGetSession env route.Region tb.world
        match ss.ret with
        | some e => ⟨some e, ss.world, t0 ++ tb.trace ++ ss.trace⟩
        | none =>
          let lp := deleteRouteLoop env ipv6 route.DestNetwork (env.rangeOrder tb.ret.1) ss.world
          let a := env.LedgerRemove route lp.world
          ⟨a.1, a.2, t0 ++ tb.trace ++ ss.trace ++ lp.trace ++ [⟨Call.LedgerRemove route, a.1⟩]⟩
  else
    let a := env.LedgerRemove route w
    ⟨a.1, a.2, [⟨Call.LedgerRemove route, a.1⟩]⟩

/-! ### A route-table backend for exercising the reconciler

Not part of the repository: an in-memory stand-in for the EC2 API that keeps
the route tables of one virtual network and stores a successful create or
replace exactly as it was requested. -/

/-- The state of the in-memory backend: the route tables of the network. -/
structure Store where
  tables : List Ec2RouteTable
deriving DecidableEq, Repr

/-- Put a route with the given fields into the table `tableId`, in place of any
route of that table with the same two destination fields. -/
def Store.put (st : Store) (tableId : Option String) (route : Ec2Route) : Store :=
  ⟨st.tables.map fun t =>
    if t.RouteTableId = tableId then
      ⟨t.RouteTableId,
        (t.Routes.filter fun r =>
          !(decide (r.DestinationCidrBlock = route.DestinationCidrBlock) &&
            decide (r.DestinationIpv6CidrBlock = route.DestinationIpv6CidrBlock))) ++ [route]⟩
    else t⟩

/-- Remove from the table `tableId` the routes with the given destination fields. -/
def Store.remove (st : Store) (tableId d4 d6 : Option String) : Store :=
  ⟨st.tables.map fun t =>
    if t.RouteTableId = tableId then
      ⟨t.RouteTableId,
        t.Routes.filter fun r =>
          !(decide (r.DestinationCidrBlock = d4) && decide (r.DestinationIpv6CidrBlock = d6))⟩
    else t⟩

/-- The in-memory backend as an environment.  `failCreate` and `failReplace`
say which requests the backend rejects (a rejected request changes nothing);
every other create or replace is stored as requested.  Sessions, the ledger
and deletes always succeed, and a range visits the tables in stored order. -/
def storeEnv (config : Config) (failCreate : CreateRouteInput → Bool)
    (failReplace : ReplaceRouteInput → Bool) : Env Store where
  config := config
  Interrupt := fun _ => false
  NewSessionWithOptions := fun _ w => (none, w)
  MetadataRegion := fun w => (Except.error (GoError.ext "no metadata service"), w)
  GetMetadata := fun _ w => (Except.error (GoError.ext "no metadata service"), w)
  DescribeRouteTables := fun _ _ w => (Except.ok w.tables, w)
  CreateRoute := fun input w =>
    if failCreate input then (some (GoError.ext "create rejected"), w)
    else (none, w.put input.RouteTableId
      ⟨input.DestinationCidrBlock, input.DestinationIpv6CidrBlock, input.InstanceId,
        input.NetworkInterfaceId⟩)
  ReplaceRoute := fun input w =>
    if failReplace input then (some (GoError.ext "replace rejected"), w)
    else (none, w.put input.RouteTableId
      ⟨input.DestinationCidrBlock, input.DestinationIpv6CidrBlock, input.InstanceId,
        input.NetworkInterfaceId⟩)
  DeleteRoute := fun input w =>
    (none, w.remove input.RouteTableId input.DestinationCidrBlock input.DestinationIpv6CidrBlock)
  LedgerAdd := fun _ w => (none, w)
  LedgerRemove := fun _ w => (none, w)
  rangeOrder := fun m => m

/-- A static cloud identity: region, virtual network and instance id given in
the configuration, so that no metadata lookup is made. -/
def staticConfig : Config :=
  ⟨⟨"us-east-1", "vpc-1", "i-self", ""⟩, true⟩

/-! ### Notions used to state the properties of `AwsAddRoute` -/

/-- The table needs a mutation: the scan did not end with a route to the
wanted destination that already has the wanted target (the negation of the
test of line 261). -/
def needsMutation (ipv6 : Bool) (network : String) (data : awsMetaData)
    (rtes : List awsRoute) : Bool :=
  !((scanRoutes ipv6 network data rtes).1 && !(scanRoutes ipv6 network data rtes).2)

/-- The first call `AwsAddRoute` makes for a table that needs a mutation: a
replace when the scan set `replace`, a create otherwise. -/
def primaryCall (ipv6 : Bool) (network : String) (data : awsMetaData) (tableId : String)
    (rtes : List awsRoute) : Call :=
  if (scanRoutes ipv6 network data rtes).2 then
    Call.ReplaceRoute (replaceInput ipv6 network data tableId)
  else Call.CreateRoute (createInput ipv6 network data tableId)

/-- The call `AwsAddRoute` makes for a table after its primary call failed. -/
def fallbackCall (ipv6 : Bool) (network : String) (data : awsMetaData) (tableId : String)
    (rtes : List awsRoute) : Call :=
  if (scanRoutes ipv6 network data rtes).2 then
    Call.CreateRoute (createFallbackInput network data tableId)
  else Call.ReplaceRoute (replaceInput ipv6 network data tableId)

/-- The table a create or replace request is addressed to; `none` for any
other call. -/
def Call.mutatedTable : Call → Option String
  | Call.CreateRoute input => input.RouteTableId
  | Call.ReplaceRoute input => input.RouteTableId
  | _ => none

/-- The target (instance id, interface id) a create or replace request asks
for; `none` for any other call. -/
def Call.target : Call → Option (Option String × Option String)
  | Call.CreateRoute input => some (input.InstanceId, input.NetworkInterfaceId)
  | Call.ReplaceRoute input => some (input.InstanceId, input.NetworkInterfaceId)
  | _ => none

/-- The two destination fields (IPv4, IPv6) of a create, replace or delete
request; `none` for any other call. -/
def Call.destination : Call → Option (Option String × Option String)
  | Call.CreateRoute input => some (input.DestinationCidrBlock, input.DestinationIpv6CidrBlock)
  | Call.ReplaceRoute input => some (input.DestinationCidrBlock, input.DestinationIpv6CidrBlock)
  | Call.DeleteRoute input => some (input.DestinationCidrBlock, input.DestinationIpv6CidrBlock)
  | _ => none

/-- The call is a create request. -/
def Call.isCreate : Call → Bool
  | Call.CreateRoute _ => true
  | _ => false

/-- The call is a replace request. -/
def Call.isReplace : Call → Bool
  | Call.ReplaceRoute _ => true
  | _ => false

/-- The value of `data` in `AwsAddRoute` (line 214). -/
def addRouteData {σ : Type} (env : Env σ) (w : σ) : awsMetaData :=
  (awsGetMetaData env w).ret.1

/-- The value of `tables` in `AwsAddRoute` (line 219): the snapshot. -/
def addRouteTables {σ : Type} (env : Env σ) (w : σ) :
    Out σ Event (List (String × List awsRoute) × Option GoError) :=
  awsGetRouteTables env (addRouteData env w).Region (addRouteData env w).VpcId
    (awsGetMetaData env w).world

/-- The session `AwsAddRoute` opens for its mutations (line 224). -/
def addRouteSession {σ : Type} (env : Env σ) (w : σ) : Out σ Event (Option GoError) :=
  awsGetSession env (addRouteData env w).Region (addRouteTables env w).world

/-- `AwsAddRoute` reaches its loop over the tables: the interrupt flag is
clear and the metadata, the snapshot and the session were obtained. -/
def addRouteReady {σ : Type} (env : Env σ) (w : σ) : Prop :=
  env.Interrupt w = false ∧ (awsGetMetaData env w).ret.2 = none ∧
    (addRouteTables env w).ret.2 = none ∧ (addRouteSession env w).ret = none

/-- The calls `AwsAddRoute` makes before its loop over the tables. -/
def addRoutePrelude {σ : Type} (env : Env σ) (w : σ) : List Event :=
  [⟨Call.Sleep 150, none⟩] ++ (awsGetMetaData env w).trace ++ (addRouteTables env w).trace ++
    (addRouteSession env w).trace

/-- The loop of `AwsAddRoute` as run inside the call `AwsAddRoute env network w`
over the tables `ts`. -/
def addRouteRun {σ : Type} (env : Env σ) (network : String) (w : σ)
    (ts : List (String × List awsRoute)) : Out σ Event (Option GoError) :=
  addRouteLoop env (stringsContains network ":") network (addRouteData env w) ts
    (addRouteSession env w).world

/-- The answer of the backend to a create or replace request issued in the
world `w`, and the world after it (other calls are not route mutations and are
left alone here). -/
def issue {σ : Type} (env : Env σ) : Call → σ → Option GoError × σ
  | Call.CreateRoute input, w => env.CreateRoute input w
  | Call.ReplaceRoute input, w => env.ReplaceRoute input w
  | _, w => (none, w)

/-- The error `AwsAddRoute` returns when the fallback call of a table failed
with `e`: lines 296-298 and 336-338. -/
def tableError (e : GoError) : GoError :=
  GoError.RequestError "cloud: Failed to get create route" e

/-- The primary call of `AwsAddRoute env network w` for the table `tableId`
with routes `rtes`. -/
def primaryOf {σ : Type} (env : Env σ) (network : String) (w : σ) (tableId : String)
    (rtes : List awsRoute) : Call :=
  primaryCall (stringsContains network ":") network (addRouteData env w) tableId rtes

/-- The fallback call of `AwsAddRoute env network w` for the table. -/
def fallbackOf {σ : Type} (env : Env σ) (network : String) (w : σ) (tableId : String)
    (rtes : List awsRoute) : Call :=
  fallbackCall (stringsContains network ":") network (addRouteData env w) tableId rtes

/-- The table needs a mutation in the call `AwsAddRoute env network w`. -/
def needsOf {σ : Type} (env : Env σ) (network : String) (w : σ) (rtes : List awsRoute) : Bool :=
  needsMutation (stringsContains network ":") network (addRouteData env w) rtes

/-- The answer to the primary call for a table that `AwsAddRoute env network w`
reaches after the tables `pre`, and the world after it. -/
def primaryAnswer {σ : Type} (env : Env σ) (network : String) (w : σ)
    (pre : List (String × List awsRoute)) (tableId : String) (rtes : List awsRoute) :
    Option GoError × σ :=
  issue env (primaryOf env network w tableId rtes) (addRouteRun env network w pre).world

/-- The answer to the fallback call for that table, issued after the primary
call, and the world after it. -/
def fallbackAnswer {σ : Type} (env : Env σ) (network : String) (w : σ)
    (pre : List (String × List awsRoute)) (tableId : String) (rtes : List awsRoute) :
    Option GoError × σ :=
  issue env (fallbackOf env network w tableId rtes)
    (primaryAnswer env network w pre tableId rtes).2

/-- The ledger record `AwsAddRoute env network w` builds (lines 345-351). -/
def addRouteRecord {σ : Type} (env : Env σ) (network : String) (w : σ) : LedgerRoute :=
  ⟨network, (addRouteData env w).Region, (addRouteData env w).VpcId,
    (addRouteData env w).InterfaceId, (addRouteData env w).InstanceId⟩

/-- A backend that rejects every create and replace addressed to the table
`rtb-a` and stores every other request. -/
def oneTableDown : Env Store :=
  storeEnv staticConfig (fun input => decide (input.RouteTableId = some "rtb-a"))
    (fun input => decide (input.RouteTableId = some "rtb-a"))

/-- Two empty route tables, `rtb-a` and `rtb-b`. -/
def twoEmptyTables : Store :=
  ⟨[⟨some "rtb-a", []⟩, ⟨some "rtb-b", []⟩]⟩

/-- Two empty route tables, visited in the order `rtb-b`, `rtb-a`. -/
def twoEmptyTablesRev : Store :=
  ⟨[⟨some "rtb-b", []⟩, ⟨some "rtb-a", []⟩]⟩

/-- The snapshot `AwsDeleteRoute` fetches (line 374). -/
def deleteTables {σ : Type} (env : Env σ) (route : LedgerRoute) (w : σ) :
    Out σ Event (List (String × List awsRoute) × Option GoError) :=
  awsGetRouteTables env route.Region route.VpcId w

/-- The session `AwsDeleteRoute` opens for its deletes (line 380). -/
def deleteSession {σ : Type} (env : Env σ) (route : LedgerRoute) (w : σ) :
    Out σ Event (Option GoError) :=
  awsGetSession env route.Region (deleteTables env route w).world

/-- The loop of `AwsDeleteRoute` as run inside `AwsDeleteRoute env route w`. -/
def deleteRun {σ : Type} (env : Env σ) (route : LedgerRoute) (w : σ) : Out σ Event Unit :=
  deleteRouteLoop env (stringsContains route.DestNetwork ":") route.DestNetwork
    (env.rangeOrder (deleteTables env route w).ret.1) (deleteSession env route w).world

/-- The call is a delete request. -/
def Call.isDelete : Call → Bool
  | Call.DeleteRoute _ => true
  | _ => false

/-- The call is a ledger removal. -/
def Call.isLedgerRemove : Call → Bool
  | Call.LedgerRemove _ => true
  | _ => false

/-- A backend that rejects every replace and stores every create. -/
def replaceDown : Env Store :=
  storeEnv staticConfig (fun _ => false) (fun _ => true)

/-- A backend that rejects nothing. -/
def healthy : Env Store :=
  storeEnv staticConfig (fun _ => false) (fun _ => false)

/-- One route table whose route to `fd00::/64` points at another instance. -/
def v6RouteElsewhere : Store :=
  ⟨[⟨some "rtb-1", [⟨none, some "fd00::/64", some "i-other", none⟩]⟩]⟩

/-- The healthy backend with the interrupt flag set. -/
def interrupted : Env Store :=
  { healthy with Interrupt := fun _ => true }

/-- The healthy backend, except that the route tables cannot be listed. -/
def describeDown : Env Store :=
  { healthy with
    DescribeRouteTables := fun _ _ w => (Except.error (GoError.ext "describe failed"), w) }

/-- The healthy backend with the delete-routes option off. -/
def keepRoutes : Env Store :=
  storeEnv ⟨staticConfig.Aws, false⟩ (fun _ => false) (fun _ => false)

/-- A ledger record for the route to `10.1.0.0/24`. -/
def sampleRecord : LedgerRoute :=
  ⟨"10.1.0.0/24", "us-east-1", "vpc-1", "", "i-self"⟩

end advertise

namespace ipsec

/-- The `state.State.Type` values the code tells apart. -/
inductive StateType where
  | DirectServer
  | DirectClient
  | Other (name : String)
deriving DecidableEq, Repr

/-- The fields of a link of `state.State` read by ipsec.go. -/
structure Link where
  Right : String
  LeftSubnets : List String
  RightSubnets : List String
  PreSharedKey : String
deriving DecidableEq, Repr

/-- The fields of `state.State` read by ipsec.go (`Type_` is the Go field
`Type`).  `Links` is `none` for a nil slice. -/
structure State where
  Id : String
  Type_ : StateType
  Links : Option (List Link)
deriving DecidableEq, Repr

/-- Go `len` of a slice that may be nil. -/
def sliceLen {α : Type} : Option (List α) → Nat
  | none => 0
  | some l => l.length

/-- The elements a Go `range` over a slice that may be nil visits. -/
def sliceElems {α : Type} : Option (List α) → List α
  | none => []
  | some l => l

/-- The `templateData` struct of ipsec.go. -/
structure templateData where
  Id : String
  Left : String
  LeftSubnets : String
  Right : String
  RightSubnets : String
  PreSharedKey : String
deriving DecidableEq, Repr

/-- An outside call made by ipsec.go. -/
inductive Call where
  | Warn (msg : String)
  | Info (msg : String)
  | UpsertRule (args : List String)
  | ClearIpTables
  | NetInit
  | RemoveAll (path : String)
  | MkdirAll (path : String) (perm : Nat)
  | ReadFile (path : String)
  | WriteFile (path : String) (data : String) (perm : Nat)
  | ExecuteConf (data : templateData)
  | ExecuteSecrets (data : templateData)
  | Ports (states : List State)
  | Exec (dir : String) (name : String) (args : List String)
  | Routes (states : List State)
  | SetIsDirectClient (value : Bool)
deriving DecidableEq, Repr

/-- One entry of the trace: the call and the error it returned, if any. -/
structure Event where
  call : Call
  err : Option GoError
deriving DecidableEq, Repr

/-- The collaborators of ipsec.go acting on a world state `σ`, and the
constants and configuration values it reads.  `Interrupt` reads
`constants.Interrupt`; `ReadFile` gives the file content, `none` when the read
fails; the two `Execute` fields give the text a template writes; `PathJoin` is
Go `path.Join`; file modes are passed as numbers. -/
structure Env (σ : Type) where
  Interrupt : σ → Bool
  DisableAdvertiseUpdate : Bool
  UpdateAdvertiseRate : Int
  UpdateAdvertiseReplay : Int
  GetLocalAddress : σ → String
  GetPublicAddress : σ → String
  GetDefaultInterface : σ → String
  UpsertRule : List String → σ → Option GoError × σ
  ClearIpTables : σ → Option GoError × σ
  NetInit : σ → Option GoError × σ
  RemoveAll : String → σ → Option GoError × σ
  MkdirAll : String → Nat → σ → Option GoError × σ
  ReadFile : String → σ → Option String × σ
  WriteFile : String → String → Nat → σ → Option GoError × σ
  PathJoin : List String → String
  ExecuteConf : templateData → σ → Except GoError String × σ
  ExecuteSecrets : templateData → σ → Except GoError String × σ
  Ports : List State → σ → Option GoError × σ
  Exec : String → String → List String → σ → Option GoError × σ
  Routes : List State → σ → Option GoError × σ
  SetIsDirectClient : Bool → σ → σ

/-- The constant `constants.IpsecConfPath`. -/
def IpsecConfPath : String := "/etc/ipsec.conf"

/-- The constant `constants.IpsecSecretsPath`. -/
def IpsecSecretsPath : String := "/etc/ipsec.secrets"

/-- The constant `constants.IpsecDirPath`. -/
def IpsecDirPath : String := "/etc/ipsec.pritunl"

/-- Go `strings.SplitN(s, "/", 2)[0]`: the text before the first slash. -/
def beforeSlash (s : String) : String :=
  String.mk (s.data.takeWhile fun c => c != '/')

/-- Run `iptables.UpsertRule` on each rule in turn, returning at the first
error, as the chain of calls in `putIpTables` does. -/
def upsertRules {σ : Type} (env : Env σ) : List (List String) → σ → Out σ Event (Option GoError)
  | [], w => ⟨none, w, []⟩
  | rule :: rest, w =>
    let r := env.UpsertRule rule w
    match r.1 with
    | some e => ⟨some e, r.2, [⟨Call.UpsertRule rule, some e⟩]⟩
    | none =>
      let l := upsertRules env rest r.2
      ⟨l.ret, l.world, ⟨Call.UpsertRule rule, none⟩ :: l.trace⟩

/-- The eight rules `putIpTables` upserts, in order. -/
def ipTablesRules (clientLocalNet clientLocal localAddress publicAddress defaultIface : String) :
    List (List String) :=
  [ ["nat", "PREROUTING", "-d", localAddress, "-p", "udp", "-m", "udp", "--dport", "500",
      "-j", "ACCEPT", "-m", "comment", "--comment", "pritunl-zero"],
    ["nat", "PREROUTING", "-d", localAddress, "-p", "udp", "-m", "udp", "--dport", "4500",
      "-j", "ACCEPT", "-m", "comment", "--comment", "pritunl-zero"],
    ["nat", "PREROUTING", "-d", publicAddress, "-p", "udp", "-m", "udp", "--dport", "500",
      "-j", "ACCEPT", "-m", "comment", "--comment", "pritunl-zero"],
    ["nat", "PREROUTING", "-d", publicAddress, "-p", "udp", "-m", "udp", "--dport", "4500",
      "-j", "ACCEPT", "-m", "comment", "--comment", "pritunl-zero"],
    ["nat", "PREROUTING", "-d", localAddress, "-j", "DNAT", "--to-destination", clientLocal,
      "-m", "comment", "--comment", "pritunl-zero"],
    ["nat", "PREROUTING", "-d", publicAddress, "-j", "DNAT", "--to-destination", clientLocal,
      "-m", "comment", "--comment", "pritunl-zero"],
    ["nat", "POSTROUTING", "-s", clientLocalNet, "-o", defaultIface, "-j", "MASQUERADE",
      "-m", "comment", "--comment", "pritunl-zero"],
    ["mangle", "FORWARD", "-s", clientLocalNet, "-p", "tcp", "-m", "tcp", "--tcp-flags",
      "SYN,RST", "SYN", "-j", "TCPMSS", "--set-mss", "1320", "-m", "comment", "--comment",
      "pritunl-zero"] ]

/-- The function `putIpTables`. -/
def putIpTables {σ : Type} (env : Env σ) (stat : State) (w : σ) : Out σ Event (Option GoError) :=
  let clientLocalNet :=
    match sliceElems stat.Links with
    | [] => ""
    | link :: _ =>
      match link.RightSubnets with
      | [] => ""
      | net :: _ => net
  let clientLocal := beforeSlash clientLocalNet
  let localAddress := env.GetLocalAddress w
  let publicAddress := env.GetPublicAddress w
  let defaultIface := env.GetDefaultInterface w
  if clientLocal = "" ∨ localAddress = "" ∨ publicAddress = "" ∨ defaultIface = "" then
    ⟨none, w, [⟨Call.Warn "ipsec: Missing required values for iptables", none⟩]⟩
  else
    upsertRules env
      (ipTablesRules clientLocalNet clientLocal localAddress publicAddress defaultIface) w

/-- The function `clearDir`. -/
def clearDir {σ : Type} (env : Env σ) (w : σ) : Out σ Event (Option GoError) :=
  let r := env.RemoveAll IpsecDirPath w
  match r.1 with
  | some e =>
    ⟨some (GoError.ReadError "ipsec: Failed to remove ipsec conf dir" e), r.2,
      [⟨Call.RemoveAll IpsecDirPath, some e⟩]⟩
  | none =>
    let m := env.MkdirAll IpsecDirPath 0o755 r.2
    match m.1 with
    | some e =>
      ⟨some (GoError.ReadError "ipsec: Failed to create ipsec conf dir" e), m.2,
        [⟨Call.RemoveAll IpsecDirPath, none⟩, ⟨Call.MkdirAll IpsecDirPath 0o755, some e⟩]⟩
    | none =>
      ⟨none, m.2,
        [⟨Call.RemoveAll IpsecDirPath, none⟩, ⟨Call.MkdirAll IpsecDirPath 0o755, none⟩]⟩

/-- The function `writeConf`. -/
def writeConf {σ : Type} (env : Env σ) (w : σ) : Out σ Event (Option GoError) :=
  let data := "include " ++ IpsecDirPath ++ "/*.conf"
  let pth := env.PathJoin [IpsecConfPath]
  let rd := env.ReadFile pth w
  let t0 : List Event := [⟨Call.ReadFile pth, none⟩]
  if (match rd.1 with
      | some curData => stringsContains curData data
      | none => false) then ⟨none, rd.2, t0⟩
  else
    let wr := env.WriteFile pth data 0o644 rd.2
    match wr.1 with
    | some e =>
      ⟨some (GoError.WriteError "ipsec: Failed to write conf" e), wr.2,
        t0 ++ [⟨Call.WriteFile pth data 0o644, some e⟩]⟩
    | none => ⟨none, wr.2, t0 ++ [⟨Call.WriteFile pth data 0o644, none⟩]⟩

/-- The inner `for i, link := range stat.Links` loop of `writeTemplates`,
from index `i` on: the error, and the two buffers after the loop. -/
def renderLinks {σ : Type} (env : Env σ) (stat : State) (publicAddr : String) :
    Nat → List Link → String → String → σ → Out σ Event (Option GoError × String × String)
  | _, [], confBuf, secretsBuf, w => ⟨(none, confBuf, secretsBuf), w, []⟩
  | i, link :: rest, confBuf, secretsBuf, w =>
    let data : templateData :=
      ⟨stat.Id ++ "-" ++ toString i, publicAddr, String.intercalate "," link.LeftSubnets,
        link.Right, String.intercalate "," link.RightSubnets, link.PreSharedKey⟩
    let c := env.ExecuteConf data w
    match c.1 with
    | Except.error e =>
      ⟨(some (GoError.ParseError "ipsec: Failed to execute conf template" e), confBuf,
          secretsBuf), c.2, [⟨Call.ExecuteConf data, some e⟩]⟩
    | Except.ok confText =>
      let x := env.ExecuteSecrets data c.2
      match x.1 with
      | Except.error e =>
        ⟨(some (GoError.ParseError "ipsec: Failed to execute secrets template" e),
            confBuf ++ confText, secretsBuf), x.2,
          [⟨Call.ExecuteConf data, none⟩, ⟨Call.ExecuteSecrets data, some e⟩]⟩
      | Except.ok secretsText =>
        let l := renderLinks env stat publicAddr (i + 1) rest (confBuf ++ confText)
          (secretsBuf ++ secretsText) x.2
        ⟨l.ret, l.world,
          ⟨Call.ExecuteConf data, none⟩ :: ⟨Call.ExecuteSecrets data, none⟩ :: l.trace⟩

/-- The outer `for _, stat := range states` loop of `writeTemplates`: the
error, the secrets buffer and `iptablesState` after the loop. -/
def writeStates {σ : Type} (env : Env σ) (publicAddr : String) :
    List State → String → Bool → σ → Out σ Event (Option GoError × String × Bool)
  | [], secretsBuf, iptablesState, w => ⟨(none, secretsBuf, iptablesState), w, []⟩
  | stat :: rest, secretsBuf, iptablesState, w =>
    let rl := renderLinks env stat publicAddr 0 (sliceElems stat.Links) "" secretsBuf w
    match rl.ret.1 with
    | some e => ⟨(some e, rl.ret.2.2, iptablesState), rl.world, rl.trace⟩
    | none =>
      let confBuf := rl.ret.2.1
      let secretsBuf1 := rl.ret.2.2
      let nat := decide (stat.Type_ = StateType.DirectServer) && decide (sliceLen stat.Links ≠ 0)
      let ip : Out σ Event (Option GoError) :=
        if nat then putIpTables env stat rl.world else ⟨none, rl.world, []⟩
      let iptablesState1 := if nat then true else iptablesState
      match ip.ret with
      | some e => ⟨(some e, secretsBuf1, iptablesState1), ip.world, rl.trace ++ ip.trace⟩
      | none =>
        let pth := env.PathJoin [IpsecDirPath, stat.Id ++ ".conf"]
        let wr := env.WriteFile pth confBuf 0o644 ip.world
        match wr.1 with
        | some e =>
          ⟨(some (GoError.WriteError "ipsec: Failed to write state conf" e), secretsBuf1,
              iptablesState1), wr.2,
            rl.trace ++ ip.trace ++ [⟨Call.WriteFile pth confBuf 0o644, some e⟩]⟩
        | none =>
          let l := writeStates env publicAddr rest secretsBuf1 iptablesState1 wr.2
          ⟨l.ret, l.world,
            rl.trace ++ ip.trace ++ [⟨Call.WriteFile pth confBuf 0o644, none⟩] ++ l.trace⟩

/-- The function `writeTemplates`. -/
def writeTemplates {σ : Type} (env : Env σ) (states : List State) (w : σ) :
    Out σ Event (Option GoError) :=
  let publicAddr := env.GetPublicAddress w
  if publicAddr = "" then ⟨none, w, []⟩
  else
    let ws := writeStates env publicAddr states "" false w
    match ws.ret.1 with
    | some e => ⟨some e, ws.world, ws.trace⟩
    | none =>
      let secretsBuf := ws.ret.2.1
      let iptablesState := ws.ret.2.2
      let wr := env.WriteFile IpsecSecretsPath secretsBuf 0o600 ws.world
      match wr.1 with
      | some e =>
        ⟨some (GoError.WriteError "ipsec: Failed to write state secrets" e), wr.2,
          ws.trace ++ [⟨Call.WriteFile IpsecSecretsPath secretsBuf 0o600, some e⟩]⟩
      | none =>
        let t1 := ws.trace ++ [⟨Call.WriteFile IpsecSecretsPath secretsBuf 0o600, none⟩]
        if !iptablesState then
          let cl := env.ClearIpTables wr.2
          ⟨cl.1, cl.2, t1 ++ [⟨Call.ClearIpTables, cl.1⟩]⟩
        else ⟨none, wr.2, t1⟩

/-- One external step of `deploy` or `update` that returns only an error. -/
def callStep {σ : Type} (f : σ → Option GoError × σ) (c : Call) (w : σ) :
    Out σ Event (Option GoError) :=
  ⟨(f w).1, (f w).2, [⟨c, (f w).1⟩]⟩

/-- Run two steps in sequence, the second only if the first returned no error
(Go: `err = f(); if err != nil { return }` followed by the rest). -/
def andThen {σ : Type} (a : Out σ Event (Option GoError))
    (b : σ → Out σ Event (Option GoError)) : Out σ Event (Option GoError) :=
  match a.ret with
  | some e => ⟨some e, a.world, a.trace⟩
  | none => ⟨(b a.world).ret, (b a.world).world, a.trace ++ (b a.world).trace⟩

/-- The two loops of `deploy` over `states` that look for a state of type
`DirectClient`. -/
def hasDirectClient (states : List State) : Bool :=
  states.any fun stat => decide (stat.Type_ = StateType.DirectClient)

/-- The assignment `state.IsDirectClient = true`, made when a state of type
`DirectClient` is present. -/
def markDirectClient {σ : Type} (env : Env σ) (states : List State) (w : σ) :
    Out σ Event (Option GoError) :=
  if hasDirectClient states then
    ⟨none, env.SetIsDirectClient true w, [⟨Call.SetIsDirectClient true, none⟩]⟩
  else ⟨none, w, []⟩

/-- The function `deploy`. -/
def deploy {σ : Type} (env : Env σ) (states : List State) (w : σ) :
    Out σ Event (Option GoError) :=
  if env.Interrupt w then ⟨some (GoError.UnknownError "state: Interrupt"), w, []⟩
  else
    andThen (markDirectClient env states w) fun w1 =>
    andThen (callStep env.ClearIpTables Call.ClearIpTables w1) fun w2 =>
    andThen (callStep env.NetInit Call.NetInit w2) fun w3 =>
    andThen (clearDir env w3) fun w4 =>
    andThen (writeConf env w4) fun w5 =>
    andThen (writeTemplates env states w5) fun w6 =>
    andThen (callStep (env.Ports states) (Call.Ports states) w6) fun w7 =>
    andThen (callStep (env.Exec "" "ipsec" ["restart"]) (Call.Exec "" "ipsec" ["restart"]) w7)
      fun w8 =>
    andThen (callStep (env.Routes states) (Call.Routes states) w8) fun w9 =>
    markDirectClient env states w9

/-- The loop of `update` that computes `hasLinks`. -/
def hasLinks (states : List State) : Bool :=
  states.any fun ste => decide (ste.Links ≠ none) && decide (sliceLen ste.Links ≠ 0)

/-- The function `update`. -/
def update {σ : Type} (env : Env σ) (states : List State) (w : σ) :
    Out σ Event (Option GoError) :=
  if env.Interrupt w then ⟨some (GoError.UnknownError "state: Interrupt"), w, []⟩
  else if env.DisableAdvertiseUpdate then ⟨none, w, []⟩
  else if !hasLinks states then ⟨none, w, []⟩
  else
    andThen ⟨none, w, [⟨Call.Info "state: Update advertisement", none⟩]⟩ fun w1 =>
    andThen (callStep (env.Ports states) (Call.Ports states) w1) fun w2 =>
    callStep (env.Routes states) (Call.Routes states) w2

/-- A run of `deploy` or `update` made by one of the two loops, with the state
set it was given and the error it returned.  A history record kept beside the
program state; the program itself only logs these. -/
inductive Run where
  | deploy (states : List State) (err : Option GoError)
  | update (states : List State) (err : Option GoError)
deriving DecidableEq, Repr

/-- Where the goroutine `runDeploy` stands.
* `top`: before the test of line 432;
* `lock`: the test was true, before the critical section of lines 433-444;
* `run states updateAd`: after the critical section, before line 446;
* `backoff states`: `deploy(states)` failed, in the sleep of line 462, before
  the critical section of lines 464-468;
* `replay`: `deploy` succeeded, before the critical section of lines 470-472. -/
inductive DeployPc where
  | top
  | lock
  | run (states : Option (List State)) (updateAd : Bool)
  | backoff (states : List State)
  | replay
deriving DecidableEq, Repr

/-- Where the goroutine `runUpdateAdvertise` stands: in the countdown loop, or
past its `break`, before line 498. -/
inductive UpdatePc where
  | tick
  | fire
deriving DecidableEq, Repr

/-- The package variables of ipsec.go (`nil` slices are `none`), the outside
world, the positions of the two goroutines and the history of runs. -/
structure Sched (σ : Type) where
  updateAdvertise : Bool
  deployStates : Option (List State)
  curStates : Option (List State)
  updateSleep : Int
  world : σ
  deployPc : DeployPc
  updatePc : UpdatePc
  history : List Run

/-- The function `Deploy`. -/
def Deploy {σ : Type} (states : Option (List State)) (s : Sched σ) : Sched σ :=
  { s with deployStates := states }

/-- The function `Redeploy`. -/
def Redeploy {σ : Type} (s : Sched σ) : Sched σ :=
  if s.deployStates = none ∧ s.curStates ≠ none then { s with deployStates := s.curStates }
  else s

/-- The critical section of lines 433-444 of `runDeploy`. -/
def pickup {σ : Type} (s : Sched σ) : Sched σ :=
  let states := s.deployStates
  match states with
  | some st =>
    { s with deployStates := none, curStates := some st, updateAdvertise := false,
             deployPc := DeployPc.run (some st) false }
  | none =>
    if s.updateAdvertise then
      { s with deployStates := none, updateAdvertise := false,
               deployPc := DeployPc.run s.curStates true }
    else
      { s with deployStates := none, updateAdvertise := false,
               deployPc := DeployPc.run none false }

/-- One step of the goroutine `runDeploy`, from one of the positions of
`DeployPc` to the next; the sleep of line 478 ends every pass of the loop. -/
def runDeploy {σ : Type} (env : Env σ) (s : Sched σ) : Sched σ :=
  match s.deployPc with
  | DeployPc.top =>
    if s.deployStates ≠ none ∨ s.updateAdvertise = true then { s with deployPc := DeployPc.lock }
    else s
  | DeployPc.lock => pickup s
  | DeployPc.run none _ => { s with deployPc := DeployPc.top }
  | DeployPc.run (some states) true =>
    let u := update env states s.world
    { s with world := u.world, history := s.history ++ [Run.update states u.ret],
             deployPc := DeployPc.top }
  | DeployPc.run (some states) false =>
    let d := deploy env states s.world
    match d.ret with
    | some e =>
      { s with world := d.world, history := s.history ++ [Run.deploy states (some e)],
               deployPc := DeployPc.backoff states }
    | none =>
      { s with world := d.world, history := s.history ++ [Run.deploy states none],
               deployPc := DeployPc.replay }
  | DeployPc.backoff states =>
    if s.deployStates = none then { s with deployStates := some states, deployPc := DeployPc.top }
    else { s with deployPc := DeployPc.top }
  | DeployPc.replay =>
    { s with updateSleep := env.UpdateAdvertiseReplay, deployPc := DeployPc.top }

/-- One step of the goroutine `runUpdateAdvertise`: one pass of the countdown
loop, or the read of `curStates` and the refresh that follow its `break`. -/
def runUpdateAdvertise {σ : Type} (env : Env σ) (s : Sched σ) : Sched σ :=
  match s.updatePc with
  | UpdatePc.tick =>
    if s.updateSleep - 1 ≤ 0 then
      { s with updateSleep := env.UpdateAdvertiseRate, updatePc := UpdatePc.fire }
    else { s with updateSleep := s.updateSleep - 1 }
  | UpdatePc.fire =>
    match s.curStates with
    | some states =>
      let u := update env states s.world
      { s with world := u.world, history := s.history ++ [Run.update states u.ret],
               updatePc := UpdatePc.tick }
    | none => { s with updatePc := UpdatePc.tick }

/-- What can happen next in the process: a caller submits a state set or asks
for a redeploy, or one of the two goroutines takes its next step. -/
inductive Action where
  | Deploy (states : Option (List State))
  | Redeploy
  | runDeploy
  | runUpdateAdvertise
deriving DecidableEq, Repr

/-- The effect of one action. -/
def step {σ : Type} (env : Env σ) (s : Sched σ) : Action → Sched σ
  | Action.Deploy states => Deploy states s
  | Action.Redeploy => Redeploy s
  | Action.runDeploy => runDeploy env s
  | Action.runUpdateAdvertise => runUpdateAdvertise env s

/-- The effect of a sequence of actions, in order. -/
def steps {σ : Type} (env : Env σ) (s : Sched σ) (actions : List Action) : Sched σ :=
  actions.foldl (step env) s

/-- The process right after `init`: no state set submitted or current, both
goroutines at the start of their loops. -/
def initial {σ : Type} (env : Env σ) (w : σ) : Sched σ where
  updateAdvertise := false
  deployStates := none
  curStates := none
  updateSleep := env.UpdateAdvertiseRate
  world := w
  deployPc := DeployPc.top
  updatePc := UpdatePc.tick
  history := []

/-! ### Notions used to state the properties of the scheduler -/

/-- The runs of `deploy` in a history, oldest first, each with the state set
it was given and the error it returned. -/
def deployEntries : List Run → List (List State × Option GoError)
  | [] => []
  | Run.deploy states err :: rest => (states, err) :: deployEntries rest
  | Run.update _ _ :: rest => deployEntries rest

/-- The state set of the most recent run of `deploy`, failed or not. -/
def lastDeployed (history : List Run) : Option (List State) :=
  (deployEntries history).getLast?.map Prod.fst

/-- The state set of the most recent run of `deploy` that returned no error. -/
def lastDeployedOk (history : List Run) : Option (List State) :=
  ((deployEntries history).filter fun x => x.2.isNone).getLast?.map Prod.fst

/-- The state set the deploy loop took most recently for a full deploy: the
one it is about to run `deploy` on, or else the one of the most recent run of
`deploy`. -/
def lastPicked {σ : Type} (s : Sched σ) : Option (List State) :=
  match s.deployPc with
  | DeployPc.run (some states) false => some states
  | _ => lastDeployed s.history

/-- Only the two goroutines act: nobody calls `Deploy` or `Redeploy`. -/
def goroutinesOnly (actions : List Action) : Prop :=
  ∀ a ∈ actions, a = Action.runDeploy ∨ a = Action.runUpdateAdvertise

/-- What holds of the scheduler from the moment `B` alone is pending until
something else is submitted; `pc0` is where the deploy loop stood at that
moment.  The runs of `deploy` since then are `pre ++ bs`: `pre` is empty, or
the one run on a state set the loop had already picked up and was about to
deploy; `bs` are runs on `B`.  Either no run on `B` was made yet and `B` is
pending, or `B` is to be (re)tried and all runs on it failed, or the last run
on `B` succeeded and nothing is pending. -/
def Coalesced {σ : Type} (B : List State) (base : List (List State × Option GoError))
    (pc0 : DeployPc) (s : Sched σ) : Prop :=
  ∃ pre bs, deployEntries s.history = base ++ pre ++ bs ∧
    (pre = [] ∨ ∃ S r, pc0 = DeployPc.run (some S) false ∧ pre = [(S, r)]) ∧
    (∀ x ∈ bs, x.1 = B) ∧
    ((bs = [] ∧ s.deployStates = some B ∧
        ((pre = [] ∧ s.deployPc = pc0) ∨ (∃ S, s.deployPc = DeployPc.backoff S) ∨
          s.deployPc = DeployPc.replay)) ∨
      ((∀ x ∈ bs, x.2 ≠ none) ∧
        (s.deployPc = DeployPc.top ∨ s.deployPc = DeployPc.lock) ∧ s.deployStates = some B) ∨
      ((∀ x ∈ bs, x.2 ≠ none) ∧
        (s.deployPc = DeployPc.run (some B) false ∨ s.deployPc = DeployPc.backoff B) ∧
        s.deployStates = none ∧ s.updateAdvertise = false) ∨
      ((∀ x ∈ bs.dropLast, x.2 ≠ none) ∧
        (s.deployPc = DeployPc.top ∨ s.deployPc = DeployPc.replay) ∧
        s.deployStates = none ∧ s.updateAdvertise = false))

/-- The number of steps of `runDeploy` from the position `pc`, with a state set
pending, to the end of the critical section that takes it: through the run
the loop already holds, if any, back to the top, the test and the critical
section. -/
def stepsToPickup : DeployPc → Nat
  | DeployPc.top => 2
  | DeployPc.lock => 1
  | DeployPc.run (some _) false => 4
  | DeployPc.run _ _ => 3
  | DeployPc.backoff _ => 3
  | DeployPc.replay => 3

/-- Collaborators that always succeed, on a world without state: no public
address is known, no file exists, the templates render to nothing. -/
def quiet : Env Unit where
  Interrupt := fun _ => false
  DisableAdvertiseUpdate := false
  UpdateAdvertiseRate := 30
  UpdateAdvertiseReplay := 5
  GetLocalAddress := fun _ => ""
  GetPublicAddress := fun _ => ""
  GetDefaultInterface := fun _ => ""
  UpsertRule := fun _ w => (none, w)
  ClearIpTables := fun w => (none, w)
  NetInit := fun w => (none, w)
  RemoveAll := fun _ w => (none, w)
  MkdirAll := fun _ _ w => (none, w)
  ReadFile := fun _ w => (none, w)
  WriteFile := fun _ _ _ w => (none, w)
  PathJoin := fun parts => String.intercalate "/" parts
  ExecuteConf := fun _ w => (Except.ok "", w)
  ExecuteSecrets := fun _ w => (Except.ok "", w)
  Ports := fun _ w => (none, w)
  Exec := fun _ _ _ w => (none, w)
  Routes := fun _ w => (none, w)
  SetIsDirectClient := fun _ w => w

/-- The same collaborators with the interrupt flag set. -/
def halted : Env Unit :=
  { quiet with Interrupt := fun _ => true }

/-- The same collaborators with the interrupt flag set and advertisement on
update disabled. -/
def haltedDisabled : Env Unit :=
  { quiet with Interrupt := fun _ => true, DisableAdvertiseUpdate := true }

/-- The same collaborators, except that port advertisement fails for the state
set `bad`. -/
def portsDownFor (bad : List State) : Env Unit :=
  { quiet with
    Ports := fun states w =>
      if states = bad then (some (GoError.ext "ports failed"), w) else (none, w) }

/-- A state set with one state and no link. -/
def siteA : List State := [⟨"site-a", StateType.Other "site", none⟩]

/-- Another state set with one state and no link. -/
def siteB : List State := [⟨"site-b", StateType.Other "site", none⟩]

/-- A state set whose only link has no subnet on either side. -/
def bareLink : List State :=
  [⟨"site-c", StateType.Other "site", some [⟨"198.51.100.7", [], [], "psk"⟩]⟩]

/-! ### Notions used to state the order of the steps of `deploy` -/

end ipsec

/-! ## Properties of `advertise/aws.go` -/

namespace advertise

theorem addRouteLoop_append {σ : Type} (env : Env σ) (ipv6 : Bool) (network : String)
    (data : awsMetaData) (pre post : List (String × List awsRoute)) (w : σ) :
    addRouteLoop env ipv6 network data (pre ++ post) w =
      match (addRouteLoop env ipv6 network data pre w).ret with
      | some e =>
        ⟨some e, (addRouteLoop env ipv6 network data pre w).world,
          (addRouteLoop env ipv6 network data pre w).trace⟩
      | none =>
        ⟨(addRouteLoop env ipv6 network data post
            (addRouteLoop env ipv6 network data pre w).world).ret,
          (addRouteLoop env ipv6 network data post
            (addRouteLoop env ipv6 network data pre w).world).world,
          (addRouteLoop env ipv6 network data pre w).trace ++
            (addRouteLoop env ipv6 network data post
              (addRouteLoop env ipv6 network data pre w).world).trace⟩ := by
  induction pre generalizing w with
  | nil => simp [addRouteLoop]
  | cons t rest ih =>
    simp only [List.cons_append, addRouteLoop]
    cases hb : (addRouteTable env ipv6 network data t.1 t.2 w).ret with
    | some e => simp
    | none =>
      simp only [List.append_eq]
      rw [ih]
      cases hl : (addRouteLoop env ipv6 network data rest
        (addRouteTable env ipv6 network data t.1 t.2 w).world).ret with
      | some e => simp
      | none => simp

/-- Once `AwsAddRoute` reaches its loop, its result is the error of the loop
or, when the loop ends without one, the result of the ledger `Add`. -/
theorem AwsAddRoute_of_ready {σ : Type} (env : Env σ) (network : String) (w : σ)
    (h : addRouteReady env w) :
    AwsAddRoute env network w =
      match (addRouteRun env network w (env.rangeOrder (addRouteTables env w).ret.1)).ret with
      | some e =>
        ⟨some e, (addRouteRun env network w (env.rangeOrder (addRouteTables env w).ret.1)).world,
          addRoutePrelude env w ++
            (addRouteRun env network w (env.rangeOrder (addRouteTables env w).ret.1)).trace⟩
      | none =>
        ⟨(env.LedgerAdd ⟨network, (addRouteData env w).Region, (addRouteData env w).VpcId,
              (addRouteData env w).InterfaceId, (addRouteData env w).InstanceId⟩
            (addRouteRun env network w (env.rangeOrder (addRouteTables env w).ret.1)).world).1,
          (env.LedgerAdd ⟨network, (addRouteData env w).Region, (addRouteData env w).VpcId,
              (addRouteData env w).InterfaceId, (addRouteData env w).InstanceId⟩
            (addRouteRun env network w (env.rangeOrder (addRouteTables env w).ret.1)).world).2,
          addRoutePrelude env w ++
            (addRouteRun env network w (env.rangeOrder (addRouteTables env w).ret.1)).trace ++
            [⟨Call.LedgerAdd ⟨network, (addRouteData env w).Region, (addRouteData env w).VpcId,
                (addRouteData env w).InterfaceId, (addRouteData env w).InstanceId⟩,
              (env.LedgerAdd ⟨network, (addRouteData env w).Region, (addRouteData env w).VpcId,
                  (addRouteData env w).InterfaceId, (addRouteData env w).InstanceId⟩
                (addRouteRun env network w
                  (env.rangeOrder (addRouteTables env w).ret.1)).world).1⟩]⟩ := by
  obtain ⟨h1, h2, h3, h4⟩ := h
  simp only [addRouteTables, addRouteSession, addRouteData] at h3 h4
  simp only [AwsAddRoute, h1, h2, h3, h4, addRouteRun, addRoutePrelude, addRouteTables,
    addRouteSession, addRouteData]
  cases (addRouteLoop env (stringsContains network ":") network (awsGetMetaData env w).ret.1
    (env.rangeOrder (awsGetRouteTables env (awsGetMetaData env w).ret.1.Region
      (awsGetMetaData env w).ret.1.VpcId (awsGetMetaData env w).world).ret.1)
    (awsGetSession env (awsGetMetaData env w).ret.1.Region
      (awsGetRouteTables env (awsGetMetaData env w).ret.1.Region
        (awsGetMetaData env w).ret.1.VpcId (awsGetMetaData env w).world).world).world).ret <;>
    simp

theorem addRouteTable_skip {σ : Type} (env : Env σ) (ipv6 : Bool) (network : String)
    (data : awsMetaData) (tableId : String) (rtes : List awsRoute) (w : σ)
    (h : needsMutation ipv6 network data rtes = false) :
    addRouteTable env ipv6 network data tableId rtes w = ⟨none, w, []⟩ := by
  simp only [needsMutation, Bool.not_eq_false_eq_eq_true] at h
  simp [addRouteTable, h]

theorem addRouteTable_mutate {σ : Type} (env : Env σ) (ipv6 : Bool) (network : String)
    (data : awsMetaData) (tableId : String) (rtes : List awsRoute) (w : σ)
    (h : needsMutation ipv6 network data rtes = true) :
    addRouteTable env ipv6 network data tableId rtes w =
      match (issue env (primaryCall ipv6 network data tableId rtes) w).1 with
      | none =>
        ⟨none, (issue env (primaryCall ipv6 network data tableId rtes) w).2,
          [⟨primaryCall ipv6 network data tableId rtes, none⟩]⟩
      | some e1 =>
        ⟨(issue env (fallbackCall ipv6 network data tableId rtes)
              (issue env (primaryCall ipv6 network data tableId rtes) w).2).1.map tableError,
          (issue env (fallbackCall ipv6 network data tableId rtes)
              (issue env (primaryCall ipv6 network data tableId rtes) w).2).2,
          [⟨primaryCall ipv6 network data tableId rtes, some e1⟩,
            ⟨fallbackCall ipv6 network data tableId rtes,
              (issue env (fallbackCall ipv6 network data tableId rtes)
                (issue env (primaryCall ipv6 network data tableId rtes) w).2).1⟩]⟩ := by
  simp only [needsMutation, Bool.not_eq_true_eq_eq_false] at h
  unfold addRouteTable
  simp only [h, Bool.false_eq_true, if_false, primaryCall, fallbackCall]
  cases hr : (scanRoutes ipv6 network data rtes).2 with
  | true =>
    simp only [if_true, issue]
    cases h1 : (env.ReplaceRoute (replaceInput ipv6 network data tableId) w).1 with
    | none => rfl
    | some e1 =>
      simp only []
      cases h2 : (env.CreateRoute (createFallbackInput network data tableId)
        (env.ReplaceRoute (replaceInput ipv6 network data tableId) w).2).1 with
      | none => rfl
      | some e2 => rfl
  | false =>
    simp only [Bool.false_eq_true, if_false, issue]
    cases h1 : (env.CreateRoute (createInput ipv6 network data tableId) w).1 with
    | none => rfl
    | some e1 =>
      simp only []
      cases h2 : (env.ReplaceRoute (replaceInput ipv6 network data tableId)
        (env.CreateRoute (createInput ipv6 network data tableId) w).2).1 with
      | none => rfl
      | some e2 => rfl

theorem addRouteLoop_at_table {σ : Type} (env : Env σ) (ipv6 : Bool) (network : String)
    (data : awsMetaData) (pre post : List (String × List awsRoute)) (tableId : String)
    (rtes : List awsRoute) (w : σ)
    (hpre : (addRouteLoop env ipv6 network data pre w).ret = none)
    (h : needsMutation ipv6 network data rtes = true) :
    addRouteLoop env ipv6 network data (pre ++ (tableId, rtes) :: post) w =
      match (issue env (primaryCall ipv6 network data tableId rtes)
          (addRouteLoop env ipv6 network data pre w).world).1 with
      | none =>
        ⟨(addRouteLoop env ipv6 network data post
            (issue env (primaryCall ipv6 network data tableId rtes)
              (addRouteLoop env ipv6 network data pre w).world).2).ret,
          (addRouteLoop env ipv6 network data post
            (issue env (primaryCall ipv6 network data tableId rtes)
              (addRouteLoop env ipv6 network data pre w).world).2).world,
          (addRouteLoop env ipv6 network data pre w).trace ++
            ⟨primaryCall ipv6 network data tableId rtes, none⟩ ::
              (addRouteLoop env ipv6 network data post
                (issue env (primaryCall ipv6 network data tableId rtes)
                  (addRouteLoop env ipv6 network data pre w).world).2).trace⟩
      | some e1 =>
        match (issue env (fallbackCall ipv6 network data tableId rtes)
            (issue env (primaryCall ipv6 network data tableId rtes)
              (addRouteLoop env ipv6 network data pre w).world).2).1 with
        | some e2 =>
          ⟨some (tableError e2),
            (issue env (fallbackCall ipv6 network data tableId rtes)
              (issue env (primaryCall ipv6 network data tableId rtes)
                (addRouteLoop env ipv6 network data pre w).world).2).2,
            (addRouteLoop env ipv6 network data pre w).trace ++
              [⟨primaryCall ipv6 network data tableId rtes, some e1⟩,
                ⟨fallbackCall ipv6 network data tableId rtes, some e2⟩]⟩
        | none =>
          ⟨(addRouteLoop env ipv6 network data post
              (issue env (fallbackCall ipv6 network data tableId rtes)
                (issue env (primaryCall ipv6 network data tableId rtes)
                  (addRouteLoop env ipv6 network data pre w).world).2).2).ret,
            (addRouteLoop env ipv6 network data post
              (issue env (fallbackCall ipv6 network data tableId rtes)
                (issue env (primaryCall ipv6 network data tableId rtes)
                  (addRouteLoop env ipv6 network data pre w).world).2).2).world,
            (addRouteLoop env ipv6 network data pre w).trace ++
              ⟨primaryCall ipv6 network data tableId rtes, some e1⟩ ::
              ⟨fallbackCall ipv6 network data tableId rtes, none⟩ ::
                (addRouteLoop env ipv6 network data post
                  (issue env (fallbackCall ipv6 network data tableId rtes)
                    (issue env (primaryCall ipv6 network data tableId rtes)
                      (addRouteLoop env ipv6 network data pre w).world).2).2).trace⟩ := by
  rw [addRouteLoop_append, hpre]
  simp only [addRouteLoop]
  rw [addRouteTable_mutate env ipv6 network data tableId rtes _ h]
  cases h1 : (issue env (primaryCall ipv6 network data tableId rtes)
      (addRouteLoop env ipv6 network data pre w).world).1 with
  | none => simp
  | some e1 =>
    simp only []
    cases h2 : (issue env (fallbackCall ipv6 network data tableId rtes)
        (issue env (primaryCall ipv6 network data tableId rtes)
          (addRouteLoop env ipv6 network data pre w).world).2).1 with
    | none => simp
    | some e2 => simp

theorem addRouteLoop_error_split {σ : Type} (env : Env σ) (ipv6 : Bool) (network : String)
    (data : awsMetaData) (ts : List (String × List awsRoute)) (w : σ) (e : GoError)
    (h : (addRouteLoop env ipv6 network data ts w).ret = some e) :
    ∃ pre tableId rtes post, ts = pre ++ (tableId, rtes) :: post ∧
      (addRouteLoop env ipv6 network data pre w).ret = none ∧
      (addRouteTable env ipv6 network data tableId rtes
        (addRouteLoop env ipv6 network data pre w).world).ret = some e := by
  induction ts generalizing w with
  | nil => simp [addRouteLoop] at h
  | cons t rest ih =>
    simp only [addRouteLoop] at h
    cases hb : (addRouteTable env ipv6 network data t.1 t.2 w).ret with
    | some e0 =>
      rw [hb] at h
      simp only [Option.some.injEq] at h
      refine ⟨[], t.1, t.2, rest, by simp, by simp [addRouteLoop], ?_⟩
      simpa [addRouteLoop, h] using hb
    | none =>
      rw [hb] at h
      simp only [] at h
      obtain ⟨pre, tableId, rtes, post, hts, hp, hbody⟩ := ih _ h
      refine ⟨t :: pre, tableId, rtes, post, by simp [hts], ?_, ?_⟩
      · simp [addRouteLoop, hb, hp]
      · simpa [addRouteLoop, hb] using hbody

theorem call_shapes (ipv6 : Bool) (network : String) (data : awsMetaData) (tableId : String)
    (rtes : List awsRoute) :
    (((primaryCall ipv6 network data tableId rtes).isCreate = true ∧
        (fallbackCall ipv6 network data tableId rtes).isReplace = true) ∨
      ((primaryCall ipv6 network data tableId rtes).isReplace = true ∧
        (fallbackCall ipv6 network data tableId rtes).isCreate = true)) ∧
    (primaryCall ipv6 network data tableId rtes).mutatedTable = some tableId ∧
    (fallbackCall ipv6 network data tableId rtes).mutatedTable = some tableId ∧
    (fallbackCall ipv6 network data tableId rtes).target =
      (primaryCall ipv6 network data tableId rtes).target := by
  unfold primaryCall fallbackCall
  cases (scanRoutes ipv6 network data rtes).2 <;>
    simp [Call.isCreate, Call.isReplace, Call.mutatedTable, Call.target, replaceInput,
      createInput, createFallbackInput]

/-- C2. Dual fallback in `AwsAddRoute`, once the call has reached its loop over
the tables.  (1) For every table the loop reaches (no earlier table ended the
call) and that needs a mutation: the primary call and the fallback are a
create and a replace or a replace and a create, both addressed to this table
and asking for the same target; the primary call is issued right after the
calls for the earlier tables; if it fails, the fallback is the very next call;
the loop ends with an error at this table if and only if both calls failed,
and then `AwsAddRoute` returns the wrapped error of the fallback.  (2) Every
error of the loop is of this kind: it comes from a table whose primary call
and fallback both failed.  (3) When the loop reports no error, the result of
`AwsAddRoute` is the result of the ledger `Add`. -/
theorem AwsAddRoute_dual_fallback {σ : Type} (env : Env σ) (network : String) (w : σ)
    (hready : addRouteReady env w) :
    (∀ pre tableId rtes post,
      env.rangeOrder (addRouteTables env w).ret.1 = pre ++ (tableId, rtes) :: post →
      (addRouteRun env network w pre).ret = none →
      needsOf env network w rtes = true →
      ((((primaryOf env network w tableId rtes).isCreate = true ∧
            (fallbackOf env network w tableId rtes).isReplace = true) ∨
          ((primaryOf env network w tableId rtes).isReplace = true ∧
            (fallbackOf env network w tableId rtes).isCreate = true)) ∧
        (primaryOf env network w tableId rtes).mutatedTable = some tableId ∧
        (fallbackOf env network w tableId rtes).mutatedTable = some tableId ∧
        (fallbackOf env network w tableId rtes).target =
          (primaryOf env network w tableId rtes).target) ∧
      (∃ rest, (AwsAddRoute env network w).trace =
          addRoutePrelude env w ++ (addRouteRun env network w pre).trace ++
            ⟨primaryOf env network w tableId rtes,
              (primaryAnswer env network w pre tableId rtes).1⟩ :: rest ∧
        ((primaryAnswer env network w pre tableId rtes).1 ≠ none →
          ∃ rest2, rest = ⟨fallbackOf env network w tableId rtes,
              (fallbackAnswer env network w pre tableId rtes).1⟩ :: rest2 ∧
            ((fallbackAnswer env network w pre tableId rtes).1 ≠ none → rest2 = []))) ∧
      ((addRouteRun env network w (pre ++ [(tableId, rtes)])).ret ≠ none ↔
        (primaryAnswer env network w pre tableId rtes).1 ≠ none ∧
          (fallbackAnswer env network w pre tableId rtes).1 ≠ none) ∧
      (∀ e2, (primaryAnswer env network w pre tableId rtes).1 ≠ none →
        (fallbackAnswer env network w pre tableId rtes).1 = some e2 →
        (AwsAddRoute env network w).ret = some (tableError e2))) ∧
    (∀ e, (addRouteRun env network w (env.rangeOrder (addRouteTables env w).ret.1)).ret = some e →
      (AwsAddRoute env network w).ret = some e ∧
      ∃ pre tableId rtes post e1 e2,
        env.rangeOrder (addRouteTables env w).ret.1 = pre ++ (tableId, rtes) :: post ∧
        (addRouteRun env network w pre).ret = none ∧
        needsOf env network w rtes = true ∧
        (primaryAnswer env network w pre tableId rtes).1 = some e1 ∧
        (fallbackAnswer env network w pre tableId rtes).1 = some e2 ∧
        e = tableError e2) ∧
    ((addRouteRun env network w (env.rangeOrder (addRouteTables env w).ret.1)).ret = none →
      (AwsAddRoute env network w).ret =
        (env.LedgerAdd (addRouteRecord env network w)
          (addRouteRun env network w (env.rangeOrder (addRouteTables env w).ret.1)).world).1) := by
  have hA := AwsAddRoute_of_ready env network w hready
  refine ⟨?_, ?_, ?_⟩
  · intro pre tableId rtes post hsplit hpre hneeds
    have hL := addRouteLoop_at_table env (stringsContains network ":") network
      (addRouteData env w) pre post tableId rtes (addRouteSession env w).world hpre hneeds
    have hS := addRouteLoop_at_table env (stringsContains network ":") network
      (addRouteData env w) pre [] tableId rtes (addRouteSession env w).world hpre hneeds
    refine ⟨call_shapes _ _ _ _ _, ?_, ?_, ?_⟩
    · rw [hA, hsplit]
      simp only [addRouteRun, primaryAnswer, fallbackAnswer, primaryOf, fallbackOf]
      rw [hL]
      cases h1 : (issue env (primaryCall (stringsContains network ":") network
          (addRouteData env w) tableId rtes)
          (addRouteLoop env (stringsContains network ":") network (addRouteData env w) pre
            (addRouteSession env w).world).world).1 with
      | none =>
        simp only []
        cases hl : (addRouteLoop env (stringsContains network ":") network
          (addRouteData env w) post
          (issue env (primaryCall (stringsContains network ":") network
            (addRouteData env w) tableId rtes)
            (addRouteLoop env (stringsContains network ":") network (addRouteData env w) pre
              (addRouteSession env w).world).world).2).ret <;> simp
      | some e1 =>
        simp only []
        cases h2 : (issue env (fallbackCall (stringsContains network ":") network
            (addRouteData env w) tableId rtes)
            (issue env (primaryCall (stringsContains network ":") network
              (addRouteData env w) tableId rtes)
              (addRouteLoop env (stringsContains network ":") network (addRouteData env w) pre
                (addRouteSession env w).world).world).2).1 with
        | some e2 => simp
        | none =>
          simp only []
          cases hl : (addRouteLoop env (stringsContains network ":") network
            (addRouteData env w) post
            (issue env (fallbackCall (stringsContains network ":") network
              (addRouteData env w) tableId rtes)
              (issue env (primaryCall (stringsContains network ":") network
                (addRouteData env w) tableId rtes)
                (addRouteLoop env (stringsContains network ":") network (addRouteData env w)
                  pre (addRouteSession env w).world).world).2).2).ret <;> simp
    · simp only [addRouteRun, primaryAnswer, fallbackAnswer, primaryOf, fallbackOf]
      rw [hS]
      cases h1 : (issue env (primaryCall (stringsContains network ":") network
          (addRouteData env w) tableId rtes)
          (addRouteLoop env (stringsContains network ":") network (addRouteData env w) pre
            (addRouteSession env w).world).world).1 with
      | none => simp [addRouteLoop]
      | some e1 =>
        simp only []
        cases h2 : (issue env (fallbackCall (stringsContains network ":") network
            (addRouteData env w) tableId rtes)
            (issue env (primaryCall (stringsContains network ":") network
              (addRouteData env w) tableId rtes)
              (addRouteLoop env (stringsContains network ":") network (addRouteData env w) pre
                (addRouteSession env w).world).world).2).1 with
        | some e2 => simp
        | none => simp [addRouteLoop]
    · intro e2 hp hf
      rw [hA, hsplit]
      simp only [addRouteRun, primaryAnswer, fallbackAnswer, primaryOf, fallbackOf] at hp hf ⊢
      rw [hL]
      cases h1 : (issue env (primaryCall (stringsContains network ":") network
          (addRouteData env w) tableId rtes)
          (addRouteLoop env (stringsContains network ":") network (addRouteData env w) pre
            (addRouteSession env w).world).world).1 with
      | none => exact absurd h1 hp
      | some e1 => simp [hf]
  · intro e he
    refine ⟨by rw [hA, he], ?_⟩
    obtain ⟨pre, tableId, rtes, post, hts, hp, hbody⟩ :=
      addRouteLoop_error_split env _ network _ _ _ e he
    have hneeds : needsMutation (stringsContains network ":") network (addRouteData env w) rtes
        = true := by
      cases hn : needsMutation (stringsContains network ":") network (addRouteData env w) rtes
      · rw [addRouteTable_skip _ _ _ _ _ _ _ hn] at hbody
        simp at hbody
      · rfl
    rw [addRouteTable_mutate _ _ _ _ _ _ _ hneeds] at hbody
    cases h1 : (issue env (primaryCall (stringsContains network ":") network
        (addRouteData env w) tableId rtes)
        (addRouteLoop env (stringsContains network ":") network (addRouteData env w) pre
          (addRouteSession env w).world).world).1 with
    | none => rw [h1] at hbody; simp at hbody
    | some e1 =>
      rw [h1] at hbody
      simp only [Option.map_eq_some'] at hbody
      obtain ⟨e2, hf, he2⟩ := hbody
      exact ⟨pre, tableId, rtes, post, e1, e2, hts, hp, hneeds, h1, hf, he2.symm⟩
  · intro hnone
    rw [hA, hnone]
    rfl

/-- Witness for C2: on the backend that rejects replaces, with one table whose
IPv6 route points elsewhere, the call reaches its loop, the table needs a
mutation, and the loop ends with an error there exactly when both calls fail. -/
theorem AwsAddRoute_dual_fallback_witness :
    addRouteReady replaceDown v6RouteElsewhere ∧
    ((addRouteRun replaceDown "fd00::/64" v6RouteElsewhere
        ([] ++ [("rtb-1", [⟨"", "fd00::/64", "i-other", ""⟩])])).ret ≠ none ↔
      (primaryAnswer replaceDown "fd00::/64" v6RouteElsewhere [] "rtb-1"
          [⟨"", "fd00::/64", "i-other", ""⟩]).1 ≠ none ∧
        (fallbackAnswer replaceDown "fd00::/64" v6RouteElsewhere [] "rtb-1"
          [⟨"", "fd00::/64", "i-other", ""⟩]).1 ≠ none) :=
  ⟨⟨rfl, rfl, rfl, rfl⟩,
    ((AwsAddRoute_dual_fallback replaceDown "fd00::/64" v6RouteElsewhere
      ⟨rfl, rfl, rfl, rfl⟩).1 [] "rtb-1" [⟨"", "fd00::/64", "i-other", ""⟩] []
        (by decide) (by decide) (by decide)).2.2.1⟩

theorem issue_other_table {σ : Type} (env : Env σ) (ipv6 : Bool) (network : String)
    (data : awsMetaData) (failed : String) (t : String × List awsRoute) (v : σ)
    (hokC : ∀ input u, input.RouteTableId ≠ some failed → (env.CreateRoute input u).1 = none)
    (hokR : ∀ input u, input.RouteTableId ≠ some failed → (env.ReplaceRoute input u).1 = none)
    (ht : t.1 ≠ failed) :
    (issue env (primaryCall ipv6 network data t.1 t.2) v).1 = none := by
  unfold primaryCall
  cases (scanRoutes ipv6 network data t.2).2
  · simp only [Bool.false_eq_true, if_false, issue]
    exact hokC _ _ (by simp [createInput, ht])
  · simp only [if_true, issue]
    exact hokR _ _ (by simp [replaceInput, ht])

theorem issue_failed_table {σ : Type} (env : Env σ) (ipv6 : Bool) (network : String)
    (data : awsMetaData) (failed : String) (rtes : List awsRoute) (v u : σ)
    (hfailC : ∀ input u, input.RouteTableId = some failed → (env.CreateRoute input u).1 ≠ none)
    (hfailR : ∀ input u, input.RouteTableId = some failed →
      (env.ReplaceRoute input u).1 ≠ none) :
    (issue env (primaryCall ipv6 network data failed rtes) v).1 ≠ none ∧
      (issue env (fallbackCall ipv6 network data failed rtes) u).1 ≠ none := by
  unfold primaryCall fallbackCall
  cases (scanRoutes ipv6 network data rtes).2
  · simp only [Bool.false_eq_true, if_false, issue]
    exact ⟨hfailC _ _ (by simp [createInput]), hfailR _ _ (by simp [replaceInput])⟩
  · simp only [if_true, issue]
    exact ⟨hfailR _ _ (by simp [replaceInput]), hfailC _ _ (by simp [createFallbackInput])⟩

theorem addRouteLoop_all_accepted {σ : Type} (env : Env σ) (ipv6 : Bool) (network : String)
    (data : awsMetaData) (failed : String) (pre : List (String × List awsRoute))
    (hokC : ∀ input u, input.RouteTableId ≠ some failed → (env.CreateRoute input u).1 = none)
    (hokR : ∀ input u, input.RouteTableId ≠ some failed → (env.ReplaceRoute input u).1 = none)
    (hpre : ∀ t ∈ pre, t.1 ≠ failed) (w : σ) :
    (addRouteLoop env ipv6 network data pre w).ret = none ∧
      (addRouteLoop env ipv6 network data pre w).trace =
        (pre.filter fun t => needsMutation ipv6 network data t.2).map fun t =>
          ⟨primaryCall ipv6 network data t.1 t.2, none⟩ := by
  induction pre generalizing w with
  | nil => simp [addRouteLoop]
  | cons t rest ih =>
    have hrest : ∀ t ∈ rest, t.1 ≠ failed := fun x hx => hpre x (List.mem_cons_of_mem _ hx)
    have ht : t.1 ≠ failed := hpre t (List.mem_cons_self _ _)
    simp only [addRouteLoop]
    cases hn : needsMutation ipv6 network data t.2 with
    | false =>
      rw [addRouteTable_skip _ _ _ _ _ _ _ hn]
      simp [List.filter_cons, hn, ih hrest w]
    | true =>
      rw [addRouteTable_mutate _ _ _ _ _ _ _ hn,
        issue_other_table env ipv6 network data failed t w hokC hokR ht]
      simp [List.filter_cons, hn, ih hrest]

/-- C1, as the code has it.  Let the call reach its loop, let the range visit
the tables in the order `pre`, then the table `failed`, then `post`, let
`failed` need a mutation, let the backend reject every create and replace
addressed to `failed` and accept every create and replace addressed to any
other table.  Then the calls after the prelude are exactly: for each table of
`pre` that needs a mutation its primary call, accepted; then the primary call
and the fallback for `failed`, both rejected.  Nothing is issued for the
tables of `post`, no ledger record is added, and the returned error wraps the
error of the fallback call for `failed`. -/
theorem AwsAddRoute_stops_at_failed_table {σ : Type} (env : Env σ) (network : String) (w : σ)
    (pre post : List (String × List awsRoute)) (failed : String) (rtes : List awsRoute)
    (hready : addRouteReady env w)
    (hsplit : env.rangeOrder (addRouteTables env w).ret.1 = pre ++ (failed, rtes) :: post)
    (hpre : ∀ t ∈ pre, t.1 ≠ failed)
    (hneeds : needsOf env network w rtes = true)
    (hfailC : ∀ input u, input.RouteTableId = some failed → (env.CreateRoute input u).1 ≠ none)
    (hfailR : ∀ input u, input.RouteTableId = some failed → (env.ReplaceRoute input u).1 ≠ none)
    (hokC : ∀ input u, input.RouteTableId ≠ some failed → (env.CreateRoute input u).1 = none)
    (hokR : ∀ input u, input.RouteTableId ≠ some failed → (env.ReplaceRoute input u).1 = none) :
    ∃ e1 e2,
      (AwsAddRoute env network w).trace =
        addRoutePrelude env w ++
          ((pre.filter fun t => needsOf env network w t.2).map fun t =>
            ⟨primaryOf env network w t.1 t.2, none⟩) ++
          [⟨primaryOf env network w failed rtes, some e1⟩,
            ⟨fallbackOf env network w failed rtes, some e2⟩] ∧
      (AwsAddRoute env network w).ret = some (tableError e2) := by
  have hA := AwsAddRoute_of_ready env network w hready
  obtain ⟨hret, htrace⟩ := addRouteLoop_all_accepted env (stringsContains network ":") network
    (addRouteData env w) failed pre hokC hokR hpre (addRouteSession env w).world
  have hL := addRouteLoop_at_table env (stringsContains network ":") network
    (addRouteData env w) pre post failed rtes (addRouteSession env w).world hret hneeds
  obtain ⟨h1, h2⟩ := issue_failed_table env (stringsContains network ":") network
    (addRouteData env w) failed rtes
    (addRouteLoop env (stringsContains network ":") network (addRouteData env w) pre
      (addRouteSession env w).world).world
    (issue env (primaryCall (stringsContains network ":") network (addRouteData env w)
      failed rtes)
      (addRouteLoop env (stringsContains network ":") network (addRouteData env w) pre
        (addRouteSession env w).world).world).2 hfailC hfailR
  obtain ⟨e1, he1⟩ := Option.ne_none_iff_exists'.mp h1
  obtain ⟨e2, he2⟩ := Option.ne_none_iff_exists'.mp h2
  refine ⟨e1, e2, ?_⟩
  rw [hA, hsplit]
  simp only [addRouteRun]
  rw [hL, he1]
  simp only [he2, htrace, needsOf, primaryOf, fallbackOf, List.append_assoc, and_self]

/-- Witness for C1: the backend rejects what is addressed to `rtb-a`, the range
visits `rtb-b` first; `rtb-b` gets its create, `rtb-a` fails. -/
theorem AwsAddRoute_stops_at_failed_table_witness :
    ∃ e1 e2,
      (AwsAddRoute oneTableDown "10.1.0.0/24" twoEmptyTablesRev).trace =
        addRoutePrelude oneTableDown twoEmptyTablesRev ++
          (([("rtb-b", ([] : List awsRoute))].filter fun t =>
              needsOf oneTableDown "10.1.0.0/24" twoEmptyTablesRev t.2).map fun t =>
            ⟨primaryOf oneTableDown "10.1.0.0/24" twoEmptyTablesRev t.1 t.2, none⟩) ++
          [⟨primaryOf oneTableDown "10.1.0.0/24" twoEmptyTablesRev "rtb-a" [], some e1⟩,
            ⟨fallbackOf oneTableDown "10.1.0.0/24" twoEmptyTablesRev "rtb-a" [], some e2⟩] ∧
      (AwsAddRoute oneTableDown "10.1.0.0/24" twoEmptyTablesRev).ret = some (tableError e2) :=
  AwsAddRoute_stops_at_failed_table oneTableDown "10.1.0.0/24" twoEmptyTablesRev
    [("rtb-b", [])] [] "rtb-a" [] ⟨rfl, rfl, rfl, rfl⟩ (by decide) (by decide) (by decide)
    (by intro input u h; simp [oneTableDown, storeEnv, h])
    (by intro input u h; simp [oneTableDown, storeEnv, h])
    (by intro input u h; simp [oneTableDown, storeEnv, h])
    (by intro input u h; simp [oneTableDown, storeEnv, h])

/-- C1 as stated fails.  The backend rejects every create and replace addressed
to `rtb-a` and accepts every other one; the snapshot has the two tables
`rtb-a` and `rtb-b`, visited in this order, and both need a mutation.  The call
ends with an error at `rtb-a`, and no create or replace is ever issued for
`rtb-b`. -/
theorem AwsAddRoute_isolation_counterexample :
    (∀ input u, input.RouteTableId ≠ some "rtb-a" → (oneTableDown.CreateRoute input u).1 = none) ∧
    (∀ input u, input.RouteTableId ≠ some "rtb-a" →
      (oneTableDown.ReplaceRoute input u).1 = none) ∧
    (∀ input u, input.RouteTableId = some "rtb-a" → (oneTableDown.CreateRoute input u).1 ≠ none) ∧
    (∀ input u, input.RouteTableId = some "rtb-a" →
      (oneTableDown.ReplaceRoute input u).1 ≠ none) ∧
    oneTableDown.rangeOrder (addRouteTables oneTableDown twoEmptyTables).ret.1 =
      [("rtb-a", []), ("rtb-b", [])] ∧
    needsOf oneTableDown "10.1.0.0/24" twoEmptyTables [] = true ∧
    (AwsAddRoute oneTableDown "10.1.0.0/24" twoEmptyTables).ret =
      some (tableError (GoError.ext "replace rejected")) ∧
    (∀ ev ∈ (AwsAddRoute oneTableDown "10.1.0.0/24" twoEmptyTables).trace,
      ev.call.mutatedTable ≠ some "rtb-b") := by
  refine ⟨?_, ?_, ?_, ?_, by decide, by decide, by decide, by decide⟩
  · intro input u h; simp [oneTableDown, storeEnv, h]
  · intro input u h; simp [oneTableDown, storeEnv, h]
  · intro input u h; simp [oneTableDown, storeEnv, h]
  · intro input u h; simp [oneTableDown, storeEnv, h]

/-- C3 at a failing input.  The table `rtb-1` has a route to `fd00::/64` that
points at another instance; the backend rejects replaces and stores creates as
requested.  The first `AwsAddRoute` succeeds through the fallback create, which
stores the destination in the IPv4 field; the second call with the same
destination and target finds the old IPv6 route unchanged and again issues a
replace and a create. -/
theorem AwsAddRoute_second_call_mutates :
    (AwsAddRoute replaceDown "fd00::/64" v6RouteElsewhere).ret = none ∧
    (AwsAddRoute replaceDown "fd00::/64"
        (AwsAddRoute replaceDown "fd00::/64" v6RouteElsewhere).world).ret = none ∧
    ((AwsAddRoute replaceDown "fd00::/64"
        (AwsAddRoute replaceDown "fd00::/64" v6RouteElsewhere).world).trace.filter
      fun ev => ev.call.isCreate || ev.call.isReplace) =
      [⟨Call.ReplaceRoute ⟨none, some "fd00::/64", some "i-self", none, some "rtb-1"⟩,
          some (GoError.ext "replace rejected")⟩,
        ⟨Call.CreateRoute ⟨some "fd00::/64", none, some "i-self", none, some "rtb-1"⟩,
          none⟩] := by
  decide

/-- C4 at a failing input.  The destination `fd00::/64` contains a colon, the
primary replace is rejected, and the fallback create that `AwsAddRoute` then
issues carries the destination in the IPv4 field and leaves the IPv6 field
unset. -/
theorem AwsAddRoute_fallback_create_ipv4_field :
    stringsContains "fd00::/64" ":" = true ∧
    ((AwsAddRoute replaceDown "fd00::/64" v6RouteElsewhere).trace.filter
      fun ev => ev.call.isCreate || ev.call.isReplace).map (fun ev => ev.call.destination) =
      [some (none, some "fd00::/64"), some (some "fd00::/64", none)] := by
  decide

theorem deleteRouteLoop_calls {σ : Type} (env : Env σ) (ipv6 : Bool) (network : String)
    (ts : List (String × List awsRoute)) (w : σ) :
    (deleteRouteLoop env ipv6 network ts w).trace.map Event.call =
      ts.map fun t => Call.DeleteRoute (deleteInput ipv6 network t.1) := by
  induction ts generalizing w with
  | nil => simp [deleteRouteLoop]
  | cons t rest ih => simp [deleteRouteLoop, ih]

/-- C9. With the delete-routes option off, `AwsDeleteRoute` makes one outside
call, the removal of the ledger record, and returns exactly its result. -/
theorem AwsDeleteRoute_option_off {σ : Type} (env : Env σ) (route : LedgerRoute) (w : σ)
    (hoff : env.config.DeleteRoutes = false) :
    (AwsDeleteRoute env route w).trace =
      [⟨Call.LedgerRemove route, (env.LedgerRemove route w).1⟩] ∧
    (AwsDeleteRoute env route w).ret = (env.LedgerRemove route w).1 ∧
    (AwsDeleteRoute env route w).world = (env.LedgerRemove route w).2 := by
  simp [AwsDeleteRoute, hoff]

/-- Witness for C9 on the backend with the option off. -/
theorem AwsDeleteRoute_option_off_witness :
    (AwsDeleteRoute keepRoutes sampleRecord twoEmptyTables).trace =
      [⟨Call.LedgerRemove sampleRecord, (keepRoutes.LedgerRemove sampleRecord twoEmptyTables).1⟩] ∧
    (AwsDeleteRoute keepRoutes sampleRecord twoEmptyTables).ret =
      (keepRoutes.LedgerRemove sampleRecord twoEmptyTables).1 ∧
    (AwsDeleteRoute keepRoutes sampleRecord twoEmptyTables).world =
      (keepRoutes.LedgerRemove sampleRecord twoEmptyTables).2 :=
  AwsDeleteRoute_option_off keepRoutes sampleRecord twoEmptyTables rfl

/-- C8, as the code has it.  With the delete-routes option on:
(1) if the interrupt flag is set, `AwsDeleteRoute` returns the interrupt error
after its sleep, with no further call;
(2) if the snapshot cannot be fetched, or (3) the session cannot be opened, it
returns that error and makes no delete call and no ledger call;
(4) otherwise it issues one delete call per table of the snapshot, in the order
of the range (so, the range visiting every table once, exactly one per table),
whatever those calls return, then removes the ledger record, and its result is
exactly the result of the ledger removal. -/
theorem AwsDeleteRoute_option_on {σ : Type} (env : Env σ) (route : LedgerRoute) (w : σ)
    (hon : env.config.DeleteRoutes = true) :
    (env.Interrupt w = true →
      (AwsDeleteRoute env route w).ret = some (GoError.UnknownError "advertise: Interrupt") ∧
      (AwsDeleteRoute env route w).trace = [⟨Call.Sleep 150, none⟩] ∧
      (AwsDeleteRoute env route w).world = w) ∧
    (∀ e, env.Interrupt w = false → (deleteTables env route w).ret.2 = some e →
      (AwsDeleteRoute env route w).ret = some e ∧
      (AwsDeleteRoute env route w).trace =
        [⟨Call.Sleep 150, none⟩] ++ (deleteTables env route w).trace) ∧
    (∀ e, env.Interrupt w = false → (deleteTables env route w).ret.2 = none →
      (deleteSession env route w).ret = some e →
      (AwsDeleteRoute env route w).ret = some e ∧
      (AwsDeleteRoute env route w).trace =
        [⟨Call.Sleep 150, none⟩] ++ (deleteTables env route w).trace ++
          (deleteSession env route w).trace) ∧
    (env.Interrupt w = false → (deleteTables env route w).ret.2 = none →
      (deleteSession env route w).ret = none →
      (AwsDeleteRoute env route w).trace =
        [⟨Call.Sleep 150, none⟩] ++ (deleteTables env route w).trace ++
          (deleteSession env route w).trace ++ (deleteRun env route w).trace ++
          [⟨Call.LedgerRemove route,
            (env.LedgerRemove route (deleteRun env route w).world).1⟩] ∧
      (deleteRun env route w).trace.map Event.call =
        (env.rangeOrder (deleteTables env route w).ret.1).map (fun t =>
          Call.DeleteRoute
            (deleteInput (stringsContains route.DestNetwork ":") route.DestNetwork t.1)) ∧
      ((env.rangeOrder (deleteTables env route w).ret.1).Perm (deleteTables env route w).ret.1 →
        ((deleteRun env route w).trace.map Event.call).Perm
          ((deleteTables env route w).ret.1.map (fun t =>
            Call.DeleteRoute
              (deleteInput (stringsContains route.DestNetwork ":") route.DestNetwork t.1)))) ∧
      (AwsDeleteRoute env route w).ret =
        (env.LedgerRemove route (deleteRun env route w).world).1 ∧
      (AwsDeleteRoute env route w).world =
        (env.LedgerRemove route (deleteRun env route w).world).2) := by
  refine ⟨?_, ?_, ?_, ?_⟩
  · intro hi
    simp [AwsDeleteRoute, hon, hi]
  · intro e hi hf
    simp only [deleteTables] at hf
    simp [AwsDeleteRoute, hon, hi, hf, deleteTables]
  · intro e hi hf hs
    simp only [deleteTables, deleteSession] at hf hs
    simp [AwsDeleteRoute, hon, hi, hf, hs, deleteTables, deleteSession]
  · intro hi hf hs
    simp only [deleteTables, deleteSession] at hf hs
    have hc := deleteRouteLoop_calls env (stringsContains route.DestNetwork ":")
      route.DestNetwork (env.rangeOrder (deleteTables env route w).ret.1)
      (deleteSession env route w).world
    refine ⟨?_, hc, ?_, ?_, ?_⟩
    · simp [AwsDeleteRoute, hon, hi, hf, hs, deleteTables, deleteSession, deleteRun]
    · intro hperm
      unfold deleteRun
      rw [hc]
      exact hperm.map _
    · simp [AwsDeleteRoute, hon, hi, hf, hs, deleteTables, deleteSession, deleteRun]
    · simp [AwsDeleteRoute, hon, hi, hf, hs, deleteTables, deleteSession, deleteRun]

/-- Witness for C8 on the healthy backend with two tables: both get a delete
call, then the ledger record is removed. -/
theorem AwsDeleteRoute_option_on_witness :
    healthy.config.DeleteRoutes = true ∧
    ((AwsDeleteRoute healthy sampleRecord twoEmptyTables).trace.filter
      fun ev => ev.call.isDelete || ev.call.isLedgerRemove).map Event.call =
      [Call.DeleteRoute ⟨some "10.1.0.0/24", none, some "rtb-a"⟩,
        Call.DeleteRoute ⟨some "10.1.0.0/24", none, some "rtb-b"⟩,
        Call.LedgerRemove sampleRecord] :=
  ⟨rfl, by
    rw [((AwsDeleteRoute_option_on healthy sampleRecord twoEmptyTables rfl).2.2.2
      rfl rfl rfl).1]
    decide⟩

/-- C8 as stated fails.  With the delete-routes option on and the interrupt
flag set, `AwsDeleteRoute` returns the interrupt error although the ledger
removal would succeed, makes no delete call and leaves the ledger record in
place.  The same happens, with the flag clear, when the route tables cannot be
listed: the error of the fetch is returned and the ledger is not touched. -/
theorem AwsDeleteRoute_interrupt_counterexample :
    interrupted.config.DeleteRoutes = true ∧
    (AwsDeleteRoute interrupted sampleRecord twoEmptyTables).ret =
      some (GoError.UnknownError "advertise: Interrupt") ∧
    (interrupted.LedgerRemove sampleRecord twoEmptyTables).1 = none ∧
    (AwsDeleteRoute interrupted sampleRecord twoEmptyTables).trace =
      [⟨Call.Sleep 150, none⟩] ∧
    describeDown.config.DeleteRoutes = true ∧
    (AwsDeleteRoute describeDown sampleRecord twoEmptyTables).ret =
      some (GoError.RequestError "cloud: Failed to get VPC route tables"
        (GoError.ext "describe failed")) ∧
    (describeDown.LedgerRemove sampleRecord twoEmptyTables).1 = none ∧
    (AwsDeleteRoute describeDown sampleRecord twoEmptyTables).trace =
      [⟨Call.Sleep 150, none⟩, ⟨Call.NewSessionWithOptions "us-east-1", none⟩,
        ⟨Call.DescribeRouteTables "us-east-1" "vpc-1", some (GoError.ext "describe failed")⟩] := by
  decide

end advertise

/-! ## Properties of `ipsec/ipsec.go` -/

namespace ipsec

theorem hasLinks_iff (states : List State) :
    hasLinks states = true ↔ ∃ ste ∈ states, sliceLen ste.Links ≠ 0 := by
  simp only [hasLinks, List.any_eq_true, Bool.and_eq_true, decide_eq_true_eq]
  constructor
  · rintro ⟨ste, hm, _, hl⟩
    exact ⟨ste, hm, hl⟩
  · rintro ⟨ste, hm, hl⟩
    refine ⟨ste, hm, ?_, hl⟩
    intro hn
    rw [hn] at hl
    exact hl rfl

/-- C10, as the code has it.  (1) With the interrupt flag set, `update` returns
the interrupt error and advertises nothing.  (2) With the flag clear, `update`
makes no outside call and returns no error when advertisement on update is
disabled or when no state has a link.  (3) With the flag clear, advertisement on
update enabled and some state with a link, `update` advertises the ports and,
if that returned no error, the routes, and returns the first error met. -/
theorem update_skips {σ : Type} (env : Env σ) (states : List State) (w : σ) :
    (env.Interrupt w = true →
      (update env states w).ret = some (GoError.UnknownError "state: Interrupt") ∧
      (update env states w).trace = [] ∧ (update env states w).world = w) ∧
    (env.Interrupt w = false →
      (env.DisableAdvertiseUpdate = true ∨ ∀ ste ∈ states, sliceLen ste.Links = 0) →
      (update env states w).ret = none ∧ (update env states w).trace = [] ∧
      (update env states w).world = w) ∧
    (env.Interrupt w = false → env.DisableAdvertiseUpdate = false →
      (∃ ste ∈ states, sliceLen ste.Links ≠ 0) →
      (update env states w).trace =
        ⟨Call.Info "state: Update advertisement", none⟩ ::
        ⟨Call.Ports states, (env.Ports states w).1⟩ ::
        (match (env.Ports states w).1 with
          | some _ => []
          | none => [⟨Call.Routes states, (env.Routes states (env.Ports states w).2).1⟩]) ∧
      (update env states w).ret =
        (match (env.Ports states w).1 with
          | some e => some e
          | none => (env.Routes states (env.Ports states w).2).1)) := by
  refine ⟨?_, ?_, ?_⟩
  · intro hi
    simp [update, hi]
  · intro hi h
    rcases h with hd | hl
    · simp [update, hi, hd]
    · have hno : hasLinks states = false := by
        cases hh : hasLinks states
        · rfl
        · obtain ⟨ste, hm, hne⟩ := (hasLinks_iff states).mp hh
          exact absurd (hl ste hm) hne
      by_cases hd : env.DisableAdvertiseUpdate = true
      · simp [update, hi, hd]
      · simp [update, hi, hd, hno]
  · intro hi hd hl
    have hyes : hasLinks states = true := (hasLinks_iff states).mpr hl
    simp only [update, hi, hd, hyes, andThen, callStep]
    cases (env.Ports states w).1 <;> simp

/-- Witness for C10: with quiet collaborators, a state set whose state has no
link is skipped, and one with a link is advertised. -/
theorem update_skips_witness :
    ((update quiet siteA ()).ret = none ∧ (update quiet siteA ()).trace = [] ∧
      (update quiet siteA ()).world = ()) ∧
    (update quiet bareLink ()).ret =
      (match (quiet.Ports bareLink ()).1 with
        | some e => some e
        | none => (quiet.Routes bareLink (quiet.Ports bareLink ()).2).1) :=
  ⟨(update_skips quiet siteA ()).2.1 rfl (Or.inr (by decide)),
    ((update_skips quiet bareLink ()).2.2 rfl rfl (by decide)).2⟩

/-- C10 as stated fails.  Advertisement on update is enabled, the interrupt
flag is clear, and the only link of the state set has no subnet on either
side; `update` still advertises the ports and the routes.  And with
advertisement on update disabled but the interrupt flag set, `update` returns
an error. -/
theorem update_counterexample :
    quiet.Interrupt () = false ∧ quiet.DisableAdvertiseUpdate = false ∧
    (∀ ste ∈ bareLink, ∀ link ∈ sliceElems ste.Links,
      link.LeftSubnets = [] ∧ link.RightSubnets = []) ∧
    (update quiet bareLink ()).trace =
      [⟨Call.Info "state: Update advertisement", none⟩, ⟨Call.Ports bareLink, none⟩,
        ⟨Call.Routes bareLink, none⟩] ∧
    haltedDisabled.DisableAdvertiseUpdate = true ∧
    (update haltedDisabled siteA ()).ret = some (GoError.UnknownError "state: Interrupt") := by
  decide

theorem deployEntries_append (a b : List Run) :
    deployEntries (a ++ b) = deployEntries a ++ deployEntries b := by
  induction a with
  | nil => rfl
  | cons r rest ih =>
    cases r with
    | deploy states err => simp [deployEntries, ih]
    | update states err => simp [deployEntries, ih]

theorem lastPicked_congr {σ : Type} (s t : Sched σ) (hpc : t.deployPc = s.deployPc)
    (hh : deployEntries t.history = deployEntries s.history) : lastPicked t = lastPicked s := by
  unfold lastPicked lastDeployed
  rw [hpc, hh]

theorem lastPicked_idle {σ : Type} (s : Sched σ)
    (hpc : ∀ states, s.deployPc ≠ DeployPc.run (some states) false) :
    lastPicked s = lastDeployed s.history := by
  unfold lastPicked
  split
  · rename_i states heq
    exact absurd heq (hpc states)
  · rfl

theorem runDeploy_keeps_picked {σ : Type} (env : Env σ) (s : Sched σ)
    (h : s.curStates = lastPicked s) :
    (runDeploy env s).curStates = lastPicked (runDeploy env s) := by
  cases hpc : s.deployPc with
  | top =>
    have hl : lastPicked s = lastDeployed s.history :=
      lastPicked_idle s (by intro st; rw [hpc]; simp)
    unfold runDeploy
    simp only [hpc]
    split
    · rw [lastPicked_idle _ (by intro st; simp)]
      simpa [hl] using h
    · exact h
  | lock =>
    have hl : lastPicked s = lastDeployed s.history :=
      lastPicked_idle s (by intro st; rw [hpc]; simp)
    unfold runDeploy
    simp only [hpc, pickup]
    cases hd : s.deployStates with
    | some st => simp [lastPicked]
    | none =>
      simp only []
      split
      · cases hc : s.curStates with
        | none =>
          rw [lastPicked_idle _ (by intro st; simp [hc])]
          simpa [hl, hc] using h
        | some cs =>
          rw [lastPicked_idle _ (by intro st; simp)]
          simpa [hl, hc] using h
      · rw [lastPicked_idle _ (by intro st; simp)]
        simpa [hl] using h
  | run states updateAd =>
    cases states with
    | none =>
      have hl : lastPicked s = lastDeployed s.history :=
        lastPicked_idle s (by intro st; rw [hpc]; simp)
      unfold runDeploy
      simp only [hpc]
      rw [lastPicked_idle _ (by intro st; simp)]
      simpa [hl] using h
    | some st =>
      cases updateAd with
      | true =>
        have hl : lastPicked s = lastDeployed s.history :=
          lastPicked_idle s (by intro st; rw [hpc]; simp)
        unfold runDeploy
        simp only [hpc]
        rw [lastPicked_idle _ (by intro st; simp)]
        simp only [lastDeployed, deployEntries_append, deployEntries, List.append_nil]
        simpa [hl, lastDeployed] using h
      | false =>
        have hl : lastPicked s = some st := by simp [lastPicked, hpc]
        unfold runDeploy
        simp only [hpc]
        cases hd : (deploy env st s.world).ret with
        | some e =>
          simp only []
          rw [lastPicked_idle _ (by intro st; simp)]
          simp [lastDeployed, deployEntries_append, deployEntries, h, hl]
        | none =>
          simp only []
          rw [lastPicked_idle _ (by intro st; simp)]
          simp [lastDeployed, deployEntries_append, deployEntries, h, hl]
  | backoff st =>
    have hl : lastPicked s = lastDeployed s.history :=
      lastPicked_idle s (by intro st; rw [hpc]; simp)
    unfold runDeploy
    simp only [hpc]
    split
    · rw [lastPicked_idle _ (by intro st; simp)]
      simpa [hl] using h
    · rw [lastPicked_idle _ (by intro st; simp)]
      simpa [hl] using h
  | replay =>
    have hl : lastPicked s = lastDeployed s.history :=
      lastPicked_idle s (by intro st; rw [hpc]; simp)
    unfold runDeploy
    simp only [hpc]
    rw [lastPicked_idle _ (by intro st; simp)]
    simpa [hl] using h

theorem runUpdateAdvertise_keeps_picked {σ : Type} (env : Env σ) (s : Sched σ)
    (h : s.curStates = lastPicked s) :
    (runUpdateAdvertise env s).curStates = lastPicked (runUpdateAdvertise env s) := by
  have key : (runUpdateAdvertise env s).curStates = s.curStates ∧
      (runUpdateAdvertise env s).deployPc = s.deployPc ∧
      deployEntries (runUpdateAdvertise env s).history = deployEntries s.history := by
    unfold runUpdateAdvertise
    cases s.updatePc with
    | tick =>
      simp only []
      split <;> simp
    | fire =>
      simp only []
      cases s.curStates with
      | none => simp
      | some st => simp [deployEntries_append, deployEntries]
  rw [key.1, lastPicked_congr s _ key.2.1 key.2.2]
  exact h

theorem step_keeps_picked {σ : Type} (env : Env σ) (s : Sched σ) (a : Action)
    (h : s.curStates = lastPicked s) :
    (step env s a).curStates = lastPicked (step env s a) := by
  cases a with
  | Deploy states => exact h
  | Redeploy =>
    simp only [step, Redeploy]
    split
    · exact h
    · exact h
  | runDeploy => exact runDeploy_keeps_picked env s h
  | runUpdateAdvertise => exact runUpdateAdvertise_keeps_picked env s h

theorem steps_keep_picked {σ : Type} (env : Env σ) (actions : List Action) (s : Sched σ)
    (h : s.curStates = lastPicked s) :
    (steps env s actions).curStates = lastPicked (steps env s actions) := by
  induction actions generalizing s with
  | nil => exact h
  | cons a rest ih => exact ih (step env s a) (step_keeps_picked env s a h)

/-- C7, as the code has it.  In every state the process can reach from its
start, `curStates` is the state set the deploy loop took most recently for a
full deploy, whether or not a run of `deploy` on it has returned, with or
without an error: it is absent only as long as no such set was taken.  In
particular a run of `deploy` on `states`, failed or not, leaves `curStates`
equal to `states`. -/
theorem curStates_is_last_picked {σ : Type} (env : Env σ) (w : σ) (actions : List Action) :
    (steps env (initial env w) actions).curStates =
      lastPicked (steps env (initial env w) actions) ∧
    ∀ states, (steps env (initial env w) actions).deployPc = DeployPc.run (some states) false →
      (steps env (initial env w) actions).curStates = some states ∧
      (runDeploy env (steps env (initial env w) actions)).curStates = some states ∧
      lastDeployed (runDeploy env (steps env (initial env w) actions)).history = some states := by
  have h0 := steps_keep_picked env actions (initial env w) rfl
  refine ⟨h0, ?_⟩
  intro states hpc
  have h1 : (steps env (initial env w) actions).curStates = some states := by
    rw [h0]; simp [lastPicked, hpc]
  refine ⟨h1, ?_, ?_⟩
  · unfold runDeploy
    simp only [hpc]
    cases (deploy env states (steps env (initial env w) actions).world).ret <;> simpa using h1
  · unfold runDeploy
    simp only [hpc]
    cases (deploy env states (steps env (initial env w) actions).world).ret <;>
      simp [lastDeployed, deployEntries_append, deployEntries]

/-- Witness for C7: after `siteA` is submitted and picked up, the failing run
of `deploy` leaves `curStates` equal to `siteA`. -/
theorem curStates_is_last_picked_witness :
    (steps halted (initial halted ())
        [Action.Deploy (some siteA), Action.runDeploy, Action.runDeploy]).curStates =
      some siteA ∧
    (runDeploy halted (steps halted (initial halted ())
        [Action.Deploy (some siteA), Action.runDeploy, Action.runDeploy])).curStates =
      some siteA ∧
    lastDeployed (runDeploy halted (steps halted (initial halted ())
        [Action.Deploy (some siteA), Action.runDeploy, Action.runDeploy])).history =
      some siteA :=
  (curStates_is_last_picked halted ()
    [Action.Deploy (some siteA), Action.runDeploy, Action.runDeploy]).2 siteA (by decide)

/-- C7 as stated fails.  `siteA` is submitted and deployed without error, then
`siteB` is submitted and its deploy fails.  In the state reached `curStates` is
`siteB`, present and different from `siteA`, the state set of the most recent
run of `deploy` that returned without error. -/
theorem curStates_counterexample :
    (steps (portsDownFor siteB) (initial (portsDownFor siteB) ())
        [Action.Deploy (some siteA), Action.runDeploy, Action.runDeploy, Action.runDeploy,
          Action.runDeploy, Action.Deploy (some siteB), Action.runDeploy, Action.runDeploy,
          Action.runDeploy]).history =
      [Run.deploy siteA none, Run.deploy siteB (some (GoError.ext "ports failed"))] ∧
    lastDeployedOk (steps (portsDownFor siteB) (initial (portsDownFor siteB) ())
        [Action.Deploy (some siteA), Action.runDeploy, Action.runDeploy, Action.runDeploy,
          Action.runDeploy, Action.Deploy (some siteB), Action.runDeploy, Action.runDeploy,
          Action.runDeploy]).history = some siteA ∧
    (steps (portsDownFor siteB) (initial (portsDownFor siteB) ())
        [Action.Deploy (some siteA), Action.runDeploy, Action.runDeploy, Action.runDeploy,
          Action.runDeploy, Action.Deploy (some siteB), Action.runDeploy, Action.runDeploy,
          Action.runDeploy]).curStates = some siteB ∧
    siteB ≠ siteA := by
  decide

theorem runUpdateAdvertise_frame {σ : Type} (env : Env σ) (s : Sched σ) :
    (runUpdateAdvertise env s).curStates = s.curStates ∧
    (runUpdateAdvertise env s).deployStates = s.deployStates ∧
    (runUpdateAdvertise env s).updateAdvertise = s.updateAdvertise ∧
    (runUpdateAdvertise env s).deployPc = s.deployPc ∧
    deployEntries (runUpdateAdvertise env s).history = deployEntries s.history := by
  unfold runUpdateAdvertise
  cases s.updatePc with
  | tick =>
    simp only []
    split <;> simp
  | fire =>
    simp only []
    cases s.curStates with
    | none => simp
    | some st => simp [deployEntries_append, deployEntries]

theorem runDeploy_coalesced {σ : Type} (env : Env σ) (B : List State)
    (base : List (List State × Option GoError)) (pc0 : DeployPc) (s : Sched σ)
    (h : Coalesced B base pc0 s) : Coalesced B base pc0 (runDeploy env s) := by
  obtain ⟨pre, bs, hent, hpre, hB, hcase⟩ := h
  rcases hcase with ⟨hbs, hds, hloc⟩ | ⟨hfail, hpc, hds⟩ | ⟨hfail, hpc, hds, hua⟩ |
    ⟨hdl, hpc, hds, hua⟩
  · subst hbs
    rcases hloc with ⟨hp, hpc0⟩ | ⟨S, hpc⟩ | hpc
    · subst hp
      cases hpc : s.deployPc with
      | top =>
        refine ⟨[], [], ?_, Or.inl rfl, hB, Or.inr (Or.inl ⟨by simp, Or.inr ?_, ?_⟩)⟩ <;>
          simp [runDeploy, hpc, hds, hent]
      | lock =>
        refine ⟨[], [], ?_, Or.inl rfl, hB,
          Or.inr (Or.inr (Or.inl ⟨by simp, Or.inl ?_, ?_, ?_⟩))⟩ <;>
          simp [runDeploy, hpc, hds, hent, pickup]
      | run states updateAd =>
        cases states with
        | none =>
          refine ⟨[], [], ?_, Or.inl rfl, hB, Or.inr (Or.inl ⟨by simp, Or.inl ?_, ?_⟩)⟩ <;>
            simp [runDeploy, hpc, hds, hent]
        | some S =>
          cases updateAd with
          | true =>
            refine ⟨[], [], ?_, Or.inl rfl, hB, Or.inr (Or.inl ⟨by simp, Or.inl ?_, ?_⟩)⟩ <;>
              simp [runDeploy, hpc, hds, hent, deployEntries_append, deployEntries]
          | false =>
            cases hd : (deploy env S s.world).ret with
            | some e =>
              refine ⟨[(S, some e)], [], ?_, Or.inr ⟨S, some e, ?_, rfl⟩, hB,
                Or.inl ⟨rfl, ?_, Or.inr (Or.inl ⟨S, ?_⟩)⟩⟩
              · simp [runDeploy, hpc, hd, deployEntries_append, deployEntries, hent]
              · rw [← hpc0, hpc]
              · simp [runDeploy, hpc, hd, hds]
              · simp [runDeploy, hpc, hd]
            | none =>
              refine ⟨[(S, none)], [], ?_, Or.inr ⟨S, none, ?_, rfl⟩, hB,
                Or.inl ⟨rfl, ?_, Or.inr (Or.inr ?_)⟩⟩
              · simp [runDeploy, hpc, hd, deployEntries_append, deployEntries, hent]
              · rw [← hpc0, hpc]
              · simp [runDeploy, hpc, hd, hds]
              · simp [runDeploy, hpc, hd]
      | backoff S =>
        refine ⟨[], [], ?_, Or.inl rfl, hB, Or.inr (Or.inl ⟨by simp, Or.inl ?_, ?_⟩)⟩ <;>
          simp [runDeploy, hpc, hds, hent]
      | replay =>
        refine ⟨[], [], ?_, Or.inl rfl, hB, Or.inr (Or.inl ⟨by simp, Or.inl ?_, ?_⟩)⟩ <;>
          simp [runDeploy, hpc, hds, hent]
    · refine ⟨pre, [], ?_, hpre, hB, Or.inr (Or.inl ⟨by simp, Or.inl ?_, ?_⟩)⟩ <;>
        simp [runDeploy, hpc, hds, hent]
    · refine ⟨pre, [], ?_, hpre, hB, Or.inr (Or.inl ⟨by simp, Or.inl ?_, ?_⟩)⟩ <;>
        simp [runDeploy, hpc, hds, hent]
  · rcases hpc with hpc | hpc
    · refine ⟨pre, bs, ?_, hpre, hB, Or.inr (Or.inl ⟨hfail, Or.inr ?_, ?_⟩)⟩ <;>
        simp [runDeploy, hpc, hds, hent]
    · refine ⟨pre, bs, ?_, hpre, hB, Or.inr (Or.inr (Or.inl ⟨hfail, Or.inl ?_, ?_, ?_⟩))⟩ <;>
        simp [runDeploy, hpc, hds, hent, pickup]
  · rcases hpc with hpc | hpc
    · cases hd : (deploy env B s.world).ret with
      | some e =>
        refine ⟨pre, bs ++ [(B, some e)], ?_, hpre, ?_,
          Or.inr (Or.inr (Or.inl ⟨?_, Or.inr ?_, ?_, ?_⟩))⟩
        · simp [runDeploy, hpc, hd, deployEntries_append, deployEntries, hent]
        · intro x hx
          rcases List.mem_append.mp hx with hx | hx
          · exact hB x hx
          · simp at hx; simp [hx]
        · intro x hx
          rcases List.mem_append.mp hx with hx | hx
          · exact hfail x hx
          · simp at hx; simp [hx]
        · simp [runDeploy, hpc, hd]
        · simp [runDeploy, hpc, hd, hds]
        · simp [runDeploy, hpc, hd, hua]
      | none =>
        refine ⟨pre, bs ++ [(B, none)], ?_, hpre, ?_,
          Or.inr (Or.inr (Or.inr ⟨?_, Or.inr ?_, ?_, ?_⟩))⟩
        · simp [runDeploy, hpc, hd, deployEntries_append, deployEntries, hent]
        · intro x hx
          rcases List.mem_append.mp hx with hx | hx
          · exact hB x hx
          · simp at hx; simp [hx]
        · simpa using hfail
        · simp [runDeploy, hpc, hd]
        · simp [runDeploy, hpc, hd, hds]
        · simp [runDeploy, hpc, hd, hua]
    · refine ⟨pre, bs, ?_, hpre, hB, Or.inr (Or.inl ⟨hfail, Or.inl ?_, ?_⟩)⟩ <;>
        simp [runDeploy, hpc, hds, hent]
  · rcases hpc with hpc | hpc
    · refine ⟨pre, bs, ?_, hpre, hB, Or.inr (Or.inr (Or.inr ⟨hdl, Or.inl ?_, ?_, ?_⟩))⟩ <;>
        simp [runDeploy, hpc, hds, hua, hent]
    · refine ⟨pre, bs, ?_, hpre, hB, Or.inr (Or.inr (Or.inr ⟨hdl, Or.inl ?_, ?_, ?_⟩))⟩ <;>
        simp [runDeploy, hpc, hds, hua, hent]

theorem runUpdateAdvertise_coalesced {σ : Type} (env : Env σ) (B : List State)
    (base : List (List State × Option GoError)) (pc0 : DeployPc) (s : Sched σ)
    (h : Coalesced B base pc0 s) : Coalesced B base pc0 (runUpdateAdvertise env s) := by
  obtain ⟨_, h2, h3, h4, h5⟩ := runUpdateAdvertise_frame env s
  unfold Coalesced
  rw [h2, h3, h4, h5]
  exact h

theorem steps_coalesced {σ : Type} (env : Env σ) (B : List State)
    (base : List (List State × Option GoError)) (pc0 : DeployPc) (actions : List Action)
    (s : Sched σ) (hact : goroutinesOnly actions) (h : Coalesced B base pc0 s) :
    Coalesced B base pc0 (steps env s actions) := by
  induction actions generalizing s with
  | nil => exact h
  | cons a rest ih =>
    have hrest : goroutinesOnly rest := fun x hx => hact x (List.mem_cons_of_mem _ hx)
    rcases hact a (List.mem_cons_self _ _) with ha | ha
    · subst ha
      exact ih (runDeploy env s) hrest (runDeploy_coalesced env B base pc0 s h)
    · subst ha
      exact ih (runUpdateAdvertise env s) hrest
        (runUpdateAdvertise_coalesced env B base pc0 s h)

theorem pickup_after {σ : Type} (env : Env σ) (B : List State) (s : Sched σ)
    (hds : s.deployStates = some B) :
    (steps env s (List.replicate (stepsToPickup s.deployPc) Action.runDeploy)).deployPc =
        DeployPc.run (some B) false ∧
    (steps env s (List.replicate (stepsToPickup s.deployPc) Action.runDeploy)).deployStates =
        none ∧
    (steps env s (List.replicate (stepsToPickup s.deployPc) Action.runDeploy)).curStates =
        some B := by
  cases hpc : s.deployPc with
  | top => simp [stepsToPickup, List.replicate, steps, step, runDeploy, pickup, hpc, hds]
  | lock => simp [stepsToPickup, List.replicate, steps, step, runDeploy, pickup, hpc, hds]
  | run states updateAd =>
    cases states with
    | none => simp [stepsToPickup, List.replicate, steps, step, runDeploy, pickup, hpc, hds]
    | some S =>
      cases updateAd with
      | true => simp [stepsToPickup, List.replicate, steps, step, runDeploy, pickup, hpc, hds]
      | false =>
        cases hd : (deploy env S s.world).ret <;>
          simp [stepsToPickup, List.replicate, steps, step, runDeploy, pickup, hpc, hds, hd]
  | backoff S => simp [stepsToPickup, List.replicate, steps, step, runDeploy, pickup, hpc, hds]
  | replay => simp [stepsToPickup, List.replicate, steps, step, runDeploy, pickup, hpc, hds]

theorem runDeploy_runs {σ : Type} (env : Env σ) (B : List State) (t : Sched σ)
    (hpc : t.deployPc = DeployPc.run (some B) false) :
    ∃ err, (runDeploy env t).history = t.history ++ [Run.deploy B err] := by
  cases hd : (deploy env B t.world).ret with
  | some e => exact ⟨some e, by simp [runDeploy, hpc, hd]⟩
  | none => exact ⟨none, by simp [runDeploy, hpc, hd]⟩

/-- C5, as the code has it.  Let `Deploy(A)` and then `Deploy(B)` be called,
wherever the deploy loop stands, and let nothing else be submitted.  Then
(1) `B` is the pending state set;
(2) after the steps that take the loop to its next critical section it has
taken `B`: it is about to run `deploy` on `B`, nothing is pending, `B` is the
current state set, and its next step is one run of `deploy` on `B`;
(3) if the loop stood at the top of a pass, its next three steps make exactly
one run of `deploy`, on `B`;
(4) however the two goroutines go on, the runs of `deploy` since the two calls
are: at most one run on a state set the loop had already picked up and was
about to deploy when the calls were made, then runs on `B` only, of which
every one but the last failed.  A run on `B` that succeeds is followed by no
other, a run that fails is followed by another run on `B`, and `A`, never
picked up, is never deployed. -/
theorem Deploy_coalesces {σ : Type} (env : Env σ) (s : Sched σ) (A B : List State) :
    (Deploy (some B) (Deploy (some A) s)).deployStates = some B ∧
    ((steps env (Deploy (some B) (Deploy (some A) s))
        (List.replicate (stepsToPickup s.deployPc) Action.runDeploy)).deployPc =
        DeployPc.run (some B) false ∧
      (steps env (Deploy (some B) (Deploy (some A) s))
        (List.replicate (stepsToPickup s.deployPc) Action.runDeploy)).deployStates = none ∧
      (steps env (Deploy (some B) (Deploy (some A) s))
        (List.replicate (stepsToPickup s.deployPc) Action.runDeploy)).curStates = some B ∧
      ∃ err, (runDeploy env (steps env (Deploy (some B) (Deploy (some A) s))
          (List.replicate (stepsToPickup s.deployPc) Action.runDeploy))).history =
        (steps env (Deploy (some B) (Deploy (some A) s))
          (List.replicate (stepsToPickup s.deployPc) Action.runDeploy)).history ++
          [Run.deploy B err]) ∧
    (s.deployPc = DeployPc.top →
      ∃ err, (steps env (Deploy (some B) (Deploy (some A) s))
          [Action.runDeploy, Action.runDeploy, Action.runDeploy]).history =
        s.history ++ [Run.deploy B err]) ∧
    (∀ actions, goroutinesOnly actions →
      ∃ pre bs, deployEntries (steps env (Deploy (some B) (Deploy (some A) s)) actions).history =
          deployEntries s.history ++ pre ++ bs ∧
        (pre = [] ∨ ∃ S r, s.deployPc = DeployPc.run (some S) false ∧ pre = [(S, r)]) ∧
        (∀ x ∈ bs, x.1 = B) ∧ (∀ x ∈ bs.dropLast, x.2 ≠ none)) := by
  refine ⟨rfl, ?_, ?_, ?_⟩
  · obtain ⟨h1, h2, h3⟩ := pickup_after env B (Deploy (some B) (Deploy (some A) s)) rfl
    exact ⟨h1, h2, h3, runDeploy_runs env B _ h1⟩
  · intro htop
    simp only [steps, List.foldl, step, Deploy, runDeploy, htop, pickup]
    simp only [ne_eq, reduceCtorEq, not_false_eq_true, true_or, if_true]
    cases hd : (deploy env B s.world).ret with
    | some e => exact ⟨some e, by simp⟩
    | none => exact ⟨none, by simp⟩
  · intro actions hact
    have h0 : Coalesced B (deployEntries s.history) s.deployPc
        (Deploy (some B) (Deploy (some A) s)) :=
      ⟨[], [], by simp [Deploy], Or.inl rfl, by simp,
        Or.inl ⟨rfl, rfl, Or.inl ⟨rfl, rfl⟩⟩⟩
    obtain ⟨pre, bs, hent, hpre, hB, hcase⟩ := steps_coalesced env B _ _ actions _ hact h0
    refine ⟨pre, bs, hent, hpre, hB, ?_⟩
    rcases hcase with ⟨hbs, _⟩ | ⟨hfail, _⟩ | ⟨hfail, _⟩ | ⟨hdl, _⟩
    · subst hbs; simp
    · intro x hx
      exact hfail x (List.mem_of_mem_dropLast hx)
    · intro x hx
      exact hfail x (List.mem_of_mem_dropLast hx)
    · exact hdl

/-- Witness for C5.  The loop holds `bareLink`, picked up and about to be
deployed, when `siteA` and then `siteB` are submitted; every run of `deploy`
fails.  After eleven more steps of the loop the runs are the one on `bareLink`
and then runs on `siteB` only. -/
theorem Deploy_coalesces_witness :
    ∃ pre bs,
      deployEntries (steps halted
          (Deploy (some siteB) (Deploy (some siteA)
            (steps halted (initial halted ())
              [Action.Deploy (some bareLink), Action.runDeploy, Action.runDeploy])))
          (List.replicate 11 Action.runDeploy)).history =
        deployEntries (steps halted (initial halted ())
          [Action.Deploy (some bareLink), Action.runDeploy, Action.runDeploy]).history ++
          pre ++ bs ∧
      (pre = [] ∨ ∃ S r,
        (steps halted (initial halted ())
          [Action.Deploy (some bareLink), Action.runDeploy, Action.runDeploy]).deployPc =
          DeployPc.run (some S) false ∧ pre = [(S, r)]) ∧
      (∀ x ∈ bs, x.1 = siteB) ∧ (∀ x ∈ bs.dropLast, x.2 ≠ none) :=
  (Deploy_coalesces halted
    (steps halted (initial halted ())
      [Action.Deploy (some bareLink), Action.runDeploy, Action.runDeploy])
    siteA siteB).2.2.2 (List.replicate 11 Action.runDeploy)
    (by intro a ha; exact Or.inl (List.eq_of_mem_replicate ha))

/-- C5 as stated fails.  From the start of the process, with the loop at the
top of a pass, `siteA` and then `siteB` are submitted and nothing else; every
run of `deploy` fails.  Within eleven steps of the loop there are three runs
of `deploy` on `siteB`, not exactly one. -/
theorem Deploy_coalesces_counterexample :
    (initial halted ()).deployPc = DeployPc.top ∧
    deployEntries (steps halted
        (Deploy (some siteB) (Deploy (some siteA) (initial halted ())))
        (List.replicate 11 Action.runDeploy)).history =
      [(siteB, some (GoError.UnknownError "state: Interrupt")),
        (siteB, some (GoError.UnknownError "state: Interrupt")),
        (siteB, some (GoError.UnknownError "state: Interrupt"))] := by
  decide

/-- C6, as the code has it.  Let the loop be about to run `deploy` on `S`, and
let that run fail.  Then the loop enters its backoff with the pending state
set untouched, and after the backoff:
(1) if nothing was pending when the run failed and nothing was submitted during
the backoff, `S` is the pending state set, the loop is at the top of a pass, and
that pass makes one run of `deploy`, on `S`;
(2) a state set `N` submitted during the backoff stays pending;
(3) a state set `N` submitted while `deploy` was running stays pending. -/
theorem runDeploy_retries {σ : Type} (env : Env σ) (s : Sched σ) (S : List State)
    (hpc : s.deployPc = DeployPc.run (some S) false)
    (hfail : (deploy env S s.world).ret ≠ none) :
    (runDeploy env s).deployPc = DeployPc.backoff S ∧
    (runDeploy env s).deployStates = s.deployStates ∧
    (s.deployStates = none →
      (runDeploy env (runDeploy env s)).deployStates = some S ∧
      (runDeploy env (runDeploy env s)).deployPc = DeployPc.top ∧
      ∃ err, (steps env (runDeploy env (runDeploy env s))
          [Action.runDeploy, Action.runDeploy, Action.runDeploy]).history =
        (runDeploy env s).history ++ [Run.deploy S err]) ∧
    (∀ N, (runDeploy env (Deploy (some N) (runDeploy env s))).deployStates = some N) ∧
    (∀ N, s.deployStates = some N →
      (runDeploy env (runDeploy env s)).deployStates = some N) := by
  obtain ⟨e, he⟩ := Option.ne_none_iff_exists'.mp hfail
  have h1 : runDeploy env s =
      { s with world := (deploy env S s.world).world,
               history := s.history ++ [Run.deploy S (some e)],
               deployPc := DeployPc.backoff S } := by
    simp [runDeploy, hpc, he]
  refine ⟨by rw [h1], by rw [h1], ?_, ?_, ?_⟩
  · intro hnone
    rw [h1]
    simp only [steps, List.foldl, step, runDeploy, hnone, pickup]
    simp only [ne_eq, reduceCtorEq, not_false_eq_true, true_or, if_true]
    refine ⟨trivial, trivial, ?_⟩
    cases hd : (deploy env S (deploy env S s.world).world).ret with
    | some e2 => exact ⟨some e2, by simp⟩
    | none => exact ⟨none, by simp⟩
  · intro N
    rw [h1]
    simp [runDeploy, Deploy]
  · intro N hN
    rw [h1]
    simp [runDeploy, hN]

/-- Witness for C6: with the interrupt flag set every run of `deploy` fails;
`siteA`, picked up from the start of the process, is staged again. -/
theorem runDeploy_retries_witness :
    (runDeploy halted (runDeploy halted (steps halted (initial halted ())
      [Action.Deploy (some siteA), Action.runDeploy, Action.runDeploy]))).deployStates =
      some siteA :=
  ((runDeploy_retries halted (steps halted (initial halted ())
      [Action.Deploy (some siteA), Action.runDeploy, Action.runDeploy]) siteA
    (by decide) (by decide)).2.2.1 (by decide)).1

/-- C6 as stated fails.  `siteA` is picked up; `siteB` is submitted after the
pickup, before the run of `deploy` on `siteA` has failed; nothing is submitted
during the backoff.  After the backoff the pending state set is `siteB`, not
`siteA`, and the next pass runs `deploy` on `siteB`. -/
theorem runDeploy_retry_counterexample :
    (steps halted (initial halted ())
        [Action.Deploy (some siteA), Action.runDeploy, Action.runDeploy,
          Action.Deploy (some siteB), Action.runDeploy]).deployPc = DeployPc.backoff siteA ∧
    (steps halted (initial halted ())
        [Action.Deploy (some siteA), Action.runDeploy, Action.runDeploy,
          Action.Deploy (some siteB), Action.runDeploy, Action.runDeploy]).deployStates =
      some siteB ∧
    (steps halted (initial halted ())
        [Action.Deploy (some siteA), Action.runDeploy, Action.runDeploy,
          Action.Deploy (some siteB), Action.runDeploy, Action.runDeploy,
          Action.runDeploy, Action.runDeploy, Action.runDeploy]).history =
      [Run.deploy siteA (some (GoError.UnknownError "state: Interrupt")),
        Run.deploy siteB (some (GoError.UnknownError "state: Interrupt"))] ∧
    siteB ≠ siteA := by
  decide

/-- C12. `Redeploy` leaves a pending state set as it is; with nothing pending
and a current state set, it makes the current set the pending one; with
neither, nothing is pending afterwards.  In every case the current state set
and everything else in the scheduler (the refresh flag and countdown, the
world, the positions of the goroutines, the history) is left unchanged. -/
theorem Redeploy_restages {σ : Type} (s : Sched σ) :
    (s.deployStates ≠ none → (Redeploy s).deployStates = s.deployStates) ∧
    (s.deployStates = none → s.curStates ≠ none →
      (Redeploy s).deployStates = s.curStates) ∧
    (s.deployStates = none → s.curStates = none → (Redeploy s).deployStates = none) ∧
    (Redeploy s).curStates = s.curStates ∧
    (Redeploy s).updateAdvertise = s.updateAdvertise ∧
    (Redeploy s).updateSleep = s.updateSleep ∧
    (Redeploy s).world = s.world ∧
    (Redeploy s).deployPc = s.deployPc ∧
    (Redeploy s).updatePc = s.updatePc ∧
    (Redeploy s).history = s.history := by
  unfold Redeploy
  refine ⟨?_, ?_, ?_, ?_, ?_, ?_, ?_, ?_, ?_, ?_⟩
  · intro h; simp [h]
  · intro h hc; simp [h, hc]
  · intro h hc; simp [h, hc]
  all_goals split <;> rfl

/-- Witness for C12: with `siteB` pending it stays pending; after `siteA` was
deployed and nothing is pending, `Redeploy` stages `siteA` again. -/
theorem Redeploy_restages_witness :
    (Redeploy (Deploy (some siteB) (initial quiet ()))).deployStates = some siteB ∧
    (Redeploy (steps quiet (initial quiet ())
        [Action.Deploy (some siteA), Action.runDeploy, Action.runDeploy, Action.runDeploy,
          Action.runDeploy])).deployStates = some siteA :=
  ⟨(Redeploy_restages (Deploy (some siteB) (initial quiet ()))).1 (by decide),
    (Redeploy_restages (steps quiet (initial quiet ())
        [Action.Deploy (some siteA), Action.runDeploy, Action.runDeploy, Action.runDeploy,
          Action.runDeploy])).2.1 (by decide) (by decide)⟩

end ipsec

end PritunlLink
